import Mathlib

/-!
Agrovision map page: the location-analysis workflow.

A shallow embedding of `crop_predictor_frontend/src/pages/MapPage.jsx`:

* the JavaScript values the page reads from the prediction service,
* `ResultsDisplay`: label fix, default chart series, export name and averages,
* `MapPage`: the analysis workflow (`handleLocationSelect`, `handleStartAnalysis`,
  `triggerAnalysis`, `fetchPrediction`, `handleClosePanel`) and the load of the boundary
  documents,
* `LocationSearch`: the debounced place search (`handleSearch`, `onResultClick`),
* `CoordSearch`, `MapSearchComponent`, `MapClickHandler`: the three ways a point reaches
  the page, with the boundary documents and `parseFloat`.

React state is explicit state passing: every handler is a function from the component
state to the next one, and everything a handler does to the outside world (requests sent,
timers set, map movements) is appended to a log kept in the state.
-/

namespace Agrovision

/-! ## JavaScript strings -/

/-- JavaScript `s.length`: the number of UTF-16 code units of `s`. -/
def jsLength (s : String) : Nat :=
  (s.toList.map (fun c => if c.val.toNat < 65536 then 1 else 2)).sum

/-- Whether `sub` occurs in `cs` as a contiguous run. -/
def includesList (sub : List Char) : List Char → Bool
  | [] => sub.isPrefixOf []
  | c :: cs => sub.isPrefixOf (c :: cs) || includesList sub cs

/-- JavaScript `s.includes(sub)`, case-sensitive substring search. The strings of the model
are well-formed Unicode, on which search by code unit and by code point agree. -/
def includes (s sub : String) : Bool :=
  includesList sub.toList s.toList

/-! ## JavaScript values -/

mutual
/-- A JavaScript value as `JSON.parse` yields it, with `undefined` for an absent property.
A number carries its mathematical value and the text `String(n)` gives for it. -/
inductive JsVal where
  | undefined
  | null
  | bool (b : Bool)
  | num (val : Rat) (text : String)
  | str (s : String)
  | arr (items : JsItems)
  | obj (fields : JsFields)
/-- The elements of an array. -/
inductive JsItems where
  | nil
  | cons (head : JsVal) (tail : JsItems)
/-- The own properties of an object, in order. -/
inductive JsFields where
  | nil
  | cons (key : String) (value : JsVal) (rest : JsFields)
end

/-- Property lookup in the property list of an object. -/
def JsFields.get : JsFields → String → JsVal
  | .nil, _ => .undefined
  | .cons k v rest, name => if k = name then v else rest.get name

/-- Message of the `TypeError` raised by reading a property of `null` (V8 wording). -/
def nullReadMessage (name : String) : String :=
  "Cannot read properties of null (reading '" ++ name ++ "')"

/-- Message of the `TypeError` raised by reading a property of `undefined` (V8 wording). -/
def undefinedReadMessage (name : String) : String :=
  "Cannot read properties of undefined (reading '" ++ name ++ "')"

/-- Reading `v.name`: a `TypeError` on `null` and `undefined`, the property of an object,
and `undefined` for the names used here on every other value. -/
def JsVal.getProp (v : JsVal) (name : String) : Except String JsVal :=
  match v with
  | .undefined => .error (undefinedReadMessage name)
  | .null => .error (nullReadMessage name)
  | .obj fields => .ok (fields.get name)
  | _ => .ok .undefined

/-- Optional chaining `v?.name`. -/
def JsVal.getPropOpt (v : JsVal) (name : String) : JsVal :=
  match v with
  | .obj fields => fields.get name
  | _ => .undefined

/-- JavaScript truthiness (`NaN` is not a JSON value). -/
def JsVal.truthy : JsVal → Bool
  | .undefined => false
  | .null => false
  | .bool b => b
  | .num val _ => val ≠ 0
  | .str s => s ≠ ""
  | .arr _ => true
  | .obj _ => true

/-- Whether an object has an own property of the given name. -/
def JsFields.has : JsFields → String → Bool
  | .nil, _ => false
  | .cons k _ rest, name => k = name || rest.has name

/-- Message of the `TypeError` raised when an object has no primitive value (V8 wording). -/
def noPrimitiveMessage : String :=
  "Cannot convert object to primitive value"

mutual
/-- JavaScript `String(v)`: the text, or the message of the `TypeError` it raises. A parsed
object has the inherited `toString` unless an own property of that name, never callable,
hides it. -/
def JsVal.toStr : JsVal → Except String String
  | .undefined => .ok "undefined"
  | .null => .ok "null"
  | .bool b => .ok (if b then "true" else "false")
  | .num _ text => .ok text
  | .str s => .ok s
  | .arr items => JsItems.join items
  | .obj fields => if fields.has "toString" then .error noPrimitiveMessage
      else .ok "[object Object]"
/-- JavaScript `Array.prototype.join` with the default separator. -/
def JsItems.join : JsItems → Except String String
  | .nil => .ok ""
  | .cons .undefined .nil => .ok ""
  | .cons .null .nil => .ok ""
  | .cons head .nil => JsVal.toStr head
  | .cons .undefined tail => (JsItems.join tail).map (fun t => "," ++ t)
  | .cons .null tail => (JsItems.join tail).map (fun t => "," ++ t)
  | .cons head tail =>
    match JsVal.toStr head with
    | .error e => .error e
    | .ok h => (JsItems.join tail).map (fun t => h ++ "," ++ t)
end

/-- JavaScript `a || b`. -/
def JsVal.or (a b : JsVal) : JsVal :=
  if a.truthy then a else b

/-! ## JavaScript numbers read from text -/

/-- A JavaScript number as `parseFloat` yields it: `NaN`, an infinity, or a finite double,
held as the rational it stands for. The two zeros are one value. -/
inductive JsNumber where
  | nan
  | infinity (negative : Bool)
  | finite (value : Rat)
  deriving DecidableEq

/-- JavaScript `isNaN` on a number. -/
def isNaN : JsNumber → Bool
  | .nan => true
  | _ => false

/-- The white space `parseFloat` skips at the start of its text. -/
def isStrWhiteSpaceChar (c : Char) : Bool :=
  let n := c.val.toNat
  decide (n ∈ [9, 10, 11, 12, 13, 32, 160, 5760, 8232, 8233, 8239, 8287, 12288, 65279])
    || (decide (8192 ≤ n) && decide (n ≤ 8202))

/-- The value of a run of decimal digits. -/
def digitsValue (ds : List Char) : Nat :=
  ds.foldl (fun acc d => 10 * acc + (d.toNat - 48)) 0

/-- The exponent part at the start of a text, `e` or `E`, an optional sign and at least one
digit: its value, and 0 when there is none. -/
def exponentValue (cs : List Char) : Int :=
  match cs with
  | [] => 0
  | c :: rest =>
    if c = 'e' || c = 'E' then
      match rest with
      | '-' :: ds =>
        if (ds.takeWhile Char.isDigit).isEmpty then 0
        else - (digitsValue (ds.takeWhile Char.isDigit) : Int)
      | '+' :: ds => (digitsValue (ds.takeWhile Char.isDigit) : Int)
      | ds => (digitsValue (ds.takeWhile Char.isDigit) : Int)
    else 0

/-- The power `base ^ e` of a natural number to an integer exponent. -/
def powInt (base : Nat) (e : Int) : Rat :=
  if 0 ≤ e then ((base ^ e.toNat : Nat) : Rat) else 1 / ((base ^ (- e).toNat : Nat) : Rat)

/-- The number of binary digits of a positive natural number. -/
def bitLength (n : Nat) : Nat :=
  (Nat.toDigits 2 n).length

/-- The integer nearest to a non-negative rational, the even one of two equally near. -/
def roundHalfEven (q : Rat) : Nat :=
  let lower := (⌊q⌋).toNat
  if q - lower < 1 / 2 then lower
  else if 1 / 2 < q - lower then lower + 1
  else if lower % 2 = 0 then lower else lower + 1

/-- The exponent `e` with `2 ^ e ≤ x < 2 ^ (e + 1)`, for a positive rational: the digit
counts of numerator and denominator give it up to one, the comparison settles it. -/
def binaryExponent (x : Rat) : Int :=
  let e : Int := (bitLength x.num.natAbs : Int) - (bitLength x.den : Int)
  if x < powInt 2 e then e - 1 else e

/-- The double nearest to a magnitude, with its sign (IEEE 754 binary64, round to nearest,
ties to even): 53 significant bits down to the exponent -1022, steps of `2 ^ -1074` below
it, and an infinity from `2 ^ 1024` on. -/
def toDouble (negative : Bool) (magnitude : Rat) : JsNumber :=
  if magnitude = 0 then .finite 0
  else
    let e : Int := max (binaryExponent magnitude) (-1022)
    let quantum : Rat := powInt 2 (e - 52)
    let rounded : Rat := (roundHalfEven (magnitude / quantum) : Rat) * quantum
    if powInt 2 1024 ≤ rounded then .infinity negative
    else .finite (if negative then - rounded else rounded)

/-- The unsigned part of what `parseFloat` reads: `Infinity`, or the longest decimal literal
at the start of the text (digits, an optional fraction, an optional exponent) rounded to a
double, or `NaN` when the text starts with neither. -/
def parseUnsigned (negative : Bool) (cs : List Char) : JsNumber :=
  if "Infinity".toList.isPrefixOf cs then .infinity negative
  else
    let intDigits := cs.takeWhile Char.isDigit
    let afterInt := cs.dropWhile Char.isDigit
    let fracDigits :=
      match afterInt with
      | '.' :: rest => rest.takeWhile Char.isDigit
      | _ => []
    let afterFrac :=
      match afterInt with
      | '.' :: rest => rest.dropWhile Char.isDigit
      | _ => afterInt
    if intDigits.isEmpty && fracDigits.isEmpty then .nan
    else
      let mantissa : Nat := digitsValue (intDigits ++ fracDigits)
      let exponent : Int := exponentValue afterFrac - fracDigits.length
      toDouble negative ((mantissa : Rat) * powInt 10 exponent)

/-- JavaScript `parseFloat(text)`: leading white space is skipped, a sign is read, then the
longest numeric literal the text starts with; what follows it is ignored. -/
def parseFloat (text : String) : JsNumber :=
  match text.toList.dropWhile isStrWhiteSpaceChar with
  | '-' :: rest => parseUnsigned true rest
  | '+' :: rest => parseUnsigned false rest
  | cs => parseUnsigned false cs

/-! ## ResultsDisplay -/

/-- The chart series `activeChartKey` ranges over. -/
inductive ChartKey where
  | NDVI
  | NDWI
  | BSI
  deriving DecidableEq, Repr

/-- The three variables set by the label fix of `ResultsDisplay`. -/
structure LabelFix where
  mainLabel : String
  subLabel : String
  labelClass : String
  deriving DecidableEq, Repr

namespace ResultsDisplay

/-- The effect on `prediction_label`: the chart series shown when a result is presented. -/
def activeChartKeyEffect (prediction_label : String) : ChartKey :=
  if prediction_label = "CROP" then .NDVI
  else if includes prediction_label "Water" then .NDWI
  else .BSI

/-- The label fix: `mainLabel`, `subLabel` and `labelClass` of a prediction label. -/
def labelFix (prediction_label : String) : LabelFix :=
  if prediction_label = "CROP" then
    { mainLabel := "CROP", subLabel := "", labelClass := "CROP" }
  else if includes prediction_label "Water" then
    { mainLabel := "NON-CROP", subLabel := "(Identified as Water)", labelClass := "WATER" }
  else if includes prediction_label "Barren" then
    { mainLabel := "NON-CROP", subLabel := "(Identified as Barren Soil)",
      labelClass := "BARREN" }
  else
    { mainLabel := "NON-CROP", subLabel := "(Identified as Built-up/Other)",
      labelClass := "NON-CROP" }

/-- The heading of the prediction header. -/
def mainLabel (prediction_label : String) : String :=
  (labelFix prediction_label).mainLabel

/-- The text of the sub-label. -/
def subLabel (prediction_label : String) : String :=
  (labelFix prediction_label).subLabel

/-- The style class of the heading. -/
def labelClass (prediction_label : String) : String :=
  (labelFix prediction_label).labelClass

/-- The sub-label element of the prediction header, `subLabel && <h3>...</h3>`: rendered
only for a non-empty text. -/
def subLabelElement (prediction_label : String) : Option String :=
  if subLabel prediction_label ≠ "" then some (subLabel prediction_label) else none

end ResultsDisplay

/-! ## MapPage: the analysis workflow -/

/-- A point `{lat, lon}` passed to `onLocationSelect`. -/
structure Location where
  lat : Rat
  lon : Rat
  deriving DecidableEq

/-- The object `{lat, lon, year}` serialised as the body of a prediction request. -/
structure PredictBody where
  lat : Rat
  lon : Rat
  year : String
  deriving DecidableEq

/-- The endpoint of the prediction service. -/
def API_ENDPOINT : String := "http://127.0.0.1:5000/predict_live"

/-- One call of `fetch`. -/
structure FetchCall where
  url : String
  method : String
  contentType : String
  body : PredictBody
  deriving DecidableEq

/-- The values of `uiState`. -/
inductive UiState where
  | initial
  | loading
  | result
  | error
  deriving DecidableEq, Repr

/-- A response as `fetchPrediction` reads it: the status and what `response.json()` gives,
the parsed body or the message of the error it rejects with. -/
structure Response where
  status : Nat
  json : Except String JsVal

/-- The `ok` flag of a response: a status from 200 to 299. -/
def Response.ok (r : Response) : Bool :=
  decide (200 ≤ r.status) && decide (r.status ≤ 299)

/-- How a call of `fetch` settles: it rejects with an error of the given message, or it
resolves with a response. -/
inductive FetchOutcome where
  | rejected (message : String)
  | responded (r : Response)

/-- A map movement `map.flyTo([lat, lng], zoom)`. -/
structure FlyTo where
  lat : Rat
  lng : Rat
  zoom : Nat
  deriving DecidableEq

/-- A geometry of a boundary document, given by the positions `[lon, lat]` that the
library test `booleanPointInPolygon` finds in it. -/
structure Geometry where
  covers : Rat × Rat → Bool

/-- A feature of a boundary document. -/
structure Feature where
  geometry : Geometry

/-- A boundary document: a feature collection. -/
structure GeoJson where
  features : List Feature

/-- The library helper `point([lon, lat])`. -/
def turfPoint (lon lat : Rat) : Rat × Rat :=
  (lon, lat)

/-- The library test `booleanPointInPolygon(pt, geometry)`. -/
def checkPoint (pt : Rat × Rat) (geometry : Geometry) : Bool :=
  geometry.covers pt

/-- The seasons offered by the menu of `YearSelectModal`. -/
def yearOptions : List String :=
  ["2023-2024", "2022-2023", "2021-2022", "2020-2021", "2019-2020", "2018-2019"]

/-- The state of `MapPage` and of its `YearSelectModal`, with the log of what the page has
done to the map and to the network. `inFlight` holds the calls of `fetch` that have not
settled, oldest first. `geoJsonData` and `maskData` are the two boundary documents, `none`
until loaded, and `alerts` is the log of the calls of `alert`. -/
structure MapPageState where
  uiState : UiState := .initial
  clickedPoint : Option (Rat × Rat) := none
  apiResult : JsVal := .null
  mapIsReady : Bool := false
  isModalOpen : Bool := false
  locationToAnalyze : Option Location := none
  selectedYear : String := "2020-2021"
  flyTos : List FlyTo := []
  fetches : List FetchCall := []
  inFlight : List FetchCall := []
  geoJsonData : Option GeoJson := none
  maskData : Option GeoJson := none
  alerts : List String := []

namespace MapPage

/-- The state of a freshly mounted page. -/
def init : MapPageState := {}

/-- Whether `mapRef.current` is set: the map container is rendered, and the ref assigned,
exactly when `mapIsReady` holds. -/
def mapRef (s : MapPageState) : Bool :=
  s.mapIsReady

/-- The part of `fetchPrediction` up to its first `await`: the call of `fetch`. -/
def fetchPrediction (lat lon : Rat) (year : String) (s : MapPageState) : MapPageState :=
  let call : FetchCall :=
    { url := API_ENDPOINT, method := "POST", contentType := "application/json",
      body := { lat := lat, lon := lon, year := year } }
  { s with fetches := s.fetches ++ [call], inFlight := s.inFlight ++ [call] }

/-- The `try` block of `fetchPrediction` after the call has settled: the parsed body, or
the message of the error thrown on the way. -/
def fetchPredictionTry (o : FetchOutcome) : Except String JsVal :=
  match o with
  | .rejected message => .error message
  | .responded r =>
    match r.json with
    | .error message => .error message
    | .ok data =>
      if !r.ok then
        match data.getProp "error" with
        | .error message => .error message
        | .ok e =>
          match (e.or (.str "Server error.")).toStr with
          | .error message => .error message
          | .ok message => .error message
      else .ok data

/-- The rest of `fetchPrediction`, run when its call has settled: `setApiResult` and
`setUiState` on success, the `catch` block otherwise. -/
def fetchPredictionResume (o : FetchOutcome) (s : MapPageState) : MapPageState :=
  match fetchPredictionTry o with
  | .ok data => { s with apiResult := data, uiState := .result }
  | .error message =>
    { s with apiResult := .obj (.cons "error" (.str message) .nil), uiState := .error }

/-- The function `triggerAnalysis`. -/
def triggerAnalysis (lat lng : Rat) (year : String) (s : MapPageState) : MapPageState :=
  let s1 := { s with flyTos := s.flyTos ++ [FlyTo.mk lat lng 12] }
  let s2 := { s1 with clickedPoint := some (lat, lng) }
  let s3 := { s2 with uiState := .loading }
  let s4 := { s3 with apiResult := .null }
  fetchPrediction lat lng year s4

/-- The handler `handleClosePanel`. -/
def handleClosePanel (s : MapPageState) : MapPageState :=
  { s with uiState := .initial, clickedPoint := none, apiResult := .null }

/-- The handler `handleLocationSelect`. -/
def handleLocationSelect (location : Location) (s : MapPageState) : MapPageState :=
  { s with locationToAnalyze := some location, isModalOpen := true }

/-- The handler `handleStartAnalysis`. -/
def handleStartAnalysis (selectedYear : String) (s : MapPageState) : MapPageState :=
  let s1 :=
    match s.locationToAnalyze with
    | some loc =>
      if mapRef s then triggerAnalysis loc.lat loc.lon selectedYear s else s
    | none => s
  { s1 with locationToAnalyze := none }

/-- The `onClose` of the modal. -/
def onClose (s : MapPageState) : MapPageState :=
  { s with isModalOpen := false }

/-- The handler `handleAnalyzeClick` of `YearSelectModal`. -/
def handleAnalyzeClick (s : MapPageState) : MapPageState :=
  onClose (handleStartAnalysis s.selectedYear s)

/-- The text shown in the error state: `apiResult?.error || "An unknown error."`. -/
def errorText (s : MapPageState) : JsVal :=
  (s.apiResult.getPropOpt "error").or (.str "An unknown error.")

/-- The browser's `alert(message)`. -/
def alert (message : String) (s : MapPageState) : MapPageState :=
  { s with alerts := s.alerts ++ [message] }

/-- The map's `flyTo([lat, lng], zoom)`. -/
def flyTo (lat lng : Rat) (zoom : Nat) (s : MapPageState) : MapPageState :=
  { s with flyTos := s.flyTos ++ [FlyTo.mk lat lng zoom] }

/-- The `then` of the boundary load: both documents are stored and the map is marked
ready. -/
def boundaryLoaded (boundary mask : GeoJson) (s : MapPageState) : MapPageState :=
  { s with geoJsonData := some boundary, maskData := some mask, mapIsReady := true }

/-- The notice shown while the boundary document is missing. -/
def notReadyNotice : String :=
  "Boundary data is still loading. Please try again in a moment."

/-- The notice of the search box and of the coordinate search for a point outside. -/
def outsideNotice : String :=
  "This location is outside the analysis area of Telangana and Andhra Pradesh."

/-- The notice of the map search control for a point outside. -/
def outsideNoticeShort : String :=
  "This location is outside the analysis area."

/-- The notice of the coordinate search for a text that gives no number. -/
def invalidNumberNotice : String :=
  "Please enter valid latitude and longitude numbers."

/-- The containment test the three searches share:
`geoJsonData.features.some(feature => checkPoint(pt, feature.geometry))`. -/
def isInside (geoJsonData : GeoJson) (lon lat : Rat) : Bool :=
  geoJsonData.features.any (fun feature => checkPoint (turfPoint lon lat) feature.geometry)

end MapPage

namespace MapClickHandler

/-- The `click` handler of `MapClickHandler` for a click at `latlng`; `inBounds` is what
`map.getBounds().contains(e.latlng)` gives. -/
def click (latlng : Location) (inBounds : Bool) (s : MapPageState) : MapPageState :=
  if inBounds then MapPage.handleLocationSelect { lat := latlng.lat, lon := latlng.lon } s
  else s

end MapClickHandler

namespace BoundaryController

/-- A click on the map as the layers pass it on: the mask layer, drawn once `maskData` is
there, stops a click that lands on one of its shapes (`onMask`); any other click reaches
the `click` handler of `MapClickHandler`. -/
def click (latlng : Location) (inBounds onMask : Bool) (s : MapPageState) : MapPageState :=
  if s.maskData.isSome && onMask then s
  else MapClickHandler.click latlng inBounds s

end BoundaryController

namespace CoordSearch

/-- The handler `handleSearch` of `CoordSearch`, with the texts of its two inputs. The
library finds a point with an infinite coordinate in no geometry. -/
def handleSearch (latInput lonInput : String) (s : MapPageState) : MapPageState :=
  let lat := parseFloat latInput
  let lon := parseFloat lonInput
  if isNaN lat || isNaN lon then MapPage.alert MapPage.invalidNumberNotice s
  else
    match s.geoJsonData with
    | none => MapPage.alert MapPage.notReadyNotice s
    | some geoJsonData =>
      match lat, lon with
      | .finite la, .finite lo =>
        if MapPage.isInside geoJsonData lo la then
          if MapPage.mapRef s then MapPage.handleLocationSelect { lat := la, lon := lo } s
          else s
        else MapPage.alert MapPage.outsideNotice s
      | _, _ => MapPage.alert MapPage.outsideNotice s

end CoordSearch

namespace MapSearchComponent

/-- The handler `onSearchResult` of the map search control, for a result at `x`
(longitude) and `y` (latitude). -/
def onSearchResult (x y : Rat) (s : MapPageState) : MapPageState :=
  let lat := y
  let lon := x
  match s.geoJsonData with
  | none => MapPage.alert MapPage.notReadyNotice s
  | some geoJsonData =>
    if MapPage.isInside geoJsonData lon lat then MapPage.flyTo lat lon 12 s
    else MapPage.alert MapPage.outsideNoticeShort s

end MapSearchComponent

/-! ## LocationSearch: the debounced place search -/

/-- A candidate of the geocoding provider: its label, `x` (longitude) and `y` (latitude). -/
structure Candidate where
  label : String
  x : Rat
  y : Rat
  deriving DecidableEq

/-- A timer set by `setTimeout` and not yet run or cleared: its id, the time in milliseconds
at which it falls due, and the `newQuery` its callback holds. -/
structure Timer where
  id : Nat
  due : Nat
  query : String
  deriving DecidableEq, Repr

/-- The state of `LocationSearch` with the timers it has pending in the runtime and the log
of its calls of `provider.search`. `debounceTimeout` is `debounceTimeout.current`, `none`
for `null`. Timer ids are positive and `nextTimerId` is the id the next `setTimeout`
returns. `inFlight` holds the queries whose search has not settled, oldest first. -/
structure LocationSearchState where
  query : String := ""
  results : List Candidate := []
  debounceTimeout : Option Nat := none
  timers : List Timer := []
  nextTimerId : Nat := 1
  searches : List String := []
  inFlight : List String := []

namespace LocationSearch

/-- The state of a freshly mounted search box. -/
def init : LocationSearchState := {}

/-- The delay of the debounce timer, in milliseconds. -/
def debounceDelay : Nat := 300

/-- The runtime's `clearTimeout(id)`. -/
def clearTimeout (id : Nat) (s : LocationSearchState) : LocationSearchState :=
  { s with timers := s.timers.filter (fun t => t.id != id) }

/-- The runtime's `setTimeout(callback, delay)` at time `now`, the callback holding
`newQuery`; the id it returns is stored in `debounceTimeout.current`. -/
def setTimeout (now delay : Nat) (newQuery : String) (s : LocationSearchState) :
    LocationSearchState :=
  { s with
    debounceTimeout := some s.nextTimerId
    timers := s.timers ++ [{ id := s.nextTimerId, due := now + delay, query := newQuery }]
    nextTimerId := s.nextTimerId + 1 }

/-- The handler `handleSearch`, run at time `now` with `e.target.value = newQuery`. -/
def handleSearch (now : Nat) (newQuery : String) (s : LocationSearchState) :
    LocationSearchState :=
  let s1 := { s with query := newQuery }
  let s2 :=
    match s1.debounceTimeout with
    | some id => if id ≠ 0 then clearTimeout id s1 else s1
    | none => s1
  if jsLength newQuery > 3 then setTimeout now debounceDelay newQuery s2
  else { s2 with results := [] }

/-- The timer callback up to its `await`: the call of `provider.search`. -/
def timerCallback (newQuery : String) (s : LocationSearchState) : LocationSearchState :=
  { s with searches := s.searches ++ [newQuery], inFlight := s.inFlight ++ [newQuery] }

/-- The rest of the timer callback, run when the search has resolved:
`setResults(searchResults.slice(0, 5))`. -/
def timerCallbackResume (searchResults : List Candidate) (s : LocationSearchState) :
    LocationSearchState :=
  { s with results := searchResults.take 5 }

/-- The runtime runs the callbacks of the given timers, in order. -/
def runCallbacks (ts : List Timer) (s : LocationSearchState) : LocationSearchState :=
  ts.foldl (fun acc t => timerCallback t.query acc) s

/-- The clock reaches `now`: every pending timer that has fallen due is taken off the
pending list and its callback runs. Timers are kept in the order they were set, which with
one delay is the order they fall due. -/
def runTimers (now : Nat) (s : LocationSearchState) : LocationSearchState :=
  runCallbacks (s.timers.filter (fun t => decide (t.due ≤ now)))
    { s with timers := s.timers.filter (fun t => !decide (t.due ≤ now)) }

/-- Time passes with no further event until no timer is pending. -/
def runAllTimers (s : LocationSearchState) : LocationSearchState :=
  runCallbacks s.timers { s with timers := [] }

end LocationSearch

/-- What can happen to the search box. -/
inductive SearchEvent where
  /-- The text of the input changes at time `now`. -/
  | input (now : Nat) (text : String)
  /-- The clock reaches `now`. -/
  | tick (now : Nat)
  /-- The search at position `i` of `inFlight` settles: it resolves with a result list, or
  it rejects (`none`). -/
  | settle (i : Nat) (r : Option (List Candidate))

namespace LocationSearch

/-- One event. A timer that is due when an input change arrives has run before it. -/
def step (s : LocationSearchState) : SearchEvent → LocationSearchState
  | .input now text => handleSearch now text (runTimers now s)
  | .tick now => runTimers now s
  | .settle i r =>
    if i < s.inFlight.length then
      match r with
      | some searchResults =>
        timerCallbackResume searchResults { s with inFlight := s.inFlight.eraseIdx i }
      | none => { s with inFlight := s.inFlight.eraseIdx i }
    else s

/-- A sequence of events, from a given state. -/
def run (s : LocationSearchState) (events : List SearchEvent) : LocationSearchState :=
  events.foldl step s

/-- A typing session: the input changes of a timed sequence, each with its time. -/
def typing (timeline : List (Nat × String)) : List SearchEvent :=
  timeline.map (fun p => SearchEvent.input p.1 p.2)

/-- The queries the provider receives for a typing session, once every timer has run. -/
def queriesSent (timeline : List (Nat × String)) : List String :=
  (runAllTimers (run init (typing timeline))).searches

end LocationSearch

namespace LocationSearch

/-- The handler `onResultClick` of the search box, on its own state and on the page: the
text and the list are reset, then the candidate is tested against the boundary. -/
def onResultClick (result : Candidate) (box : LocationSearchState) (s : MapPageState) :
    LocationSearchState × MapPageState :=
  let lat := result.y
  let lon := result.x
  let box1 := { box with query := result.label }
  let box2 := { box1 with results := [] }
  match s.geoJsonData with
  | none => (box2, MapPage.alert MapPage.notReadyNotice s)
  | some geoJsonData =>
    if MapPage.isInside geoJsonData lon lat then
      if MapPage.mapRef s then (box2, MapPage.flyTo lat lon 12 s) else (box2, s)
    else (box2, MapPage.alert MapPage.outsideNotice s)

end LocationSearch

/-- What can happen to the page. -/
inductive MapEvent where
  /-- Both boundary documents have loaded. -/
  | boundaryLoaded (boundary mask : GeoJson)
  /-- A caller passes a location up, a map click or a coordinate search. -/
  | locationSelect (location : Location)
  /-- The user clicks the map at `latlng`. -/
  | mapClick (latlng : Location) (inBounds onMask : Bool)
  /-- The user presses Go in the coordinate search with the two texts entered. -/
  | coordSearch (latInput lonInput : String)
  /-- The map search control shows a location. -/
  | searchResult (x y : Rat)
  /-- The user picks a candidate of the search box. -/
  | resultClick (result : Candidate)
  /-- The user picks an entry of the year menu. -/
  | yearChange (year : String)
  /-- The user presses Analyze in the modal. -/
  | analyzeClick
  /-- The user presses Cancel in the modal or leaves it. -/
  | modalClose
  /-- The user presses the close button of the results panel. -/
  | closePanel
  /-- The call at position `i` of `inFlight` settles. -/
  | settle (i : Nat) (o : FetchOutcome)

namespace MapPage

/-- One event. The callers of `handleLocationSelect` run with the map mounted only: the
click handler and the map search control are rendered inside the map container, and the
search hub is rendered once `mapIsReady` holds, its inputs and its button disabled while
`geoJsonData` is missing. The handlers of the modal test nothing: `handleAnalyzeClick`
and `onClose` have no test on `open`, and the dialog keeps its buttons and its menu mounted
while it closes, so its events are taken in every state. What picking a candidate does to
the page does not depend on the state of the search box. -/
def step (s : MapPageState) : MapEvent → MapPageState
  | .boundaryLoaded boundary mask => boundaryLoaded boundary mask s
  | .locationSelect location => if mapRef s then handleLocationSelect location s else s
  | .mapClick latlng inBounds onMask =>
    if mapRef s then BoundaryController.click latlng inBounds onMask s else s
  | .coordSearch latInput lonInput =>
    if s.mapIsReady && s.geoJsonData.isSome then
      CoordSearch.handleSearch latInput lonInput s
    else s
  | .searchResult x y => if mapRef s then MapSearchComponent.onSearchResult x y s else s
  | .resultClick result =>
    if s.mapIsReady then (LocationSearch.onResultClick result LocationSearch.init s).2
    else s
  | .yearChange year => if year ∈ yearOptions then { s with selectedYear := year } else s
  | .analyzeClick => handleAnalyzeClick s
  | .modalClose => onClose s
  | .closePanel => handleClosePanel s
  | .settle i o =>
    if i < s.inFlight.length then
      fetchPredictionResume o { s with inFlight := s.inFlight.eraseIdx i }
    else s

/-- A sequence of events, from a given state. -/
def run (s : MapPageState) (events : List MapEvent) : MapPageState :=
  events.foldl step s

end MapPage

/-- The fields the result view takes from a prediction: the names destructured by
`ResultsDisplay`, which are the fields of a success response. -/
def requiredFields : List String :=
  ["prediction_label", "confidence", "coordinates", "chart_data", "subclass_metrics",
    "report_details"]

/-- Whether a parsed body has every required field. -/
def hasRequiredFields (data : JsVal) : Bool :=
  match data with
  | .obj fields => requiredFields.all (fun name => fields.has name)
  | _ => false

/-- The inputs of a timed sequence that are at least 4 long and are followed by no other
input change for 300 ms: the last input, and every input whose successor comes 300 ms
later or more. -/
def unchangedFor300ms : List (Nat × String) → List String
  | [] => []
  | [p] => if 4 ≤ jsLength p.2 then [p.2] else []
  | p :: p2 :: rest =>
    (if 4 ≤ jsLength p.2 ∧ p.1 + 300 ≤ p2.1 then [p.2] else [])
      ++ unchangedFor300ms (p2 :: rest)

/-- The four labels of a prediction. -/
inductive Label where
  | CROP
  | NON_CROP_WATER
  | NON_CROP_BARREN
  | NON_CROP_OTHER
  deriving DecidableEq, Repr

/-- The text of each label, as the About page of the application names the predictions:
"CROP", "NON-CROP (Water)", "NON-CROP (Barren Soil)", "NON-CROP (Built-up/Other)". -/
def Label.text : Label → String
  | .CROP => "CROP"
  | .NON_CROP_WATER => "NON-CROP (Water)"
  | .NON_CROP_BARREN => "NON-CROP (Barren Soil)"
  | .NON_CROP_OTHER => "NON-CROP (Built-up/Other)"

/-- A string contains another: it is the other with some text before and after. -/
def Contains (s sub : String) : Prop :=
  ∃ pre post : String, s = pre ++ sub ++ post

/-- Whether the call of `fetch` itself failed (no response arrived). -/
def FetchOutcome.transportFailure : FetchOutcome → Bool
  | .rejected _ => true
  | .responded _ => false

/-- Whether a response arrived with a status outside 200 to 299. -/
def FetchOutcome.nonSuccessStatus : FetchOutcome → Bool
  | .rejected _ => false
  | .responded r => !r.ok

/-- Whether a response arrived whose body does not parse as JSON. -/
def FetchOutcome.unparseableBody : FetchOutcome → Bool
  | .rejected _ => false
  | .responded r =>
    match r.json with
    | .error _ => true
    | .ok _ => false

/-- An array from the list of its elements. -/
def JsItems.ofList : List JsVal → JsItems
  | [] => .nil
  | v :: vs => .cons v (JsItems.ofList vs)

/-- An object from the list of its properties. -/
def JsFields.ofList : List (String × JsVal) → JsFields
  | [] => .nil
  | p :: ps => .cons p.1 p.2 (JsFields.ofList ps)

/-! ## Sample inputs -/

/-- The point (17.50, 79.00). -/
def pointA : Location := { lat := 17.5, lon := 79 }

/-- The point (18.00, 79.50). -/
def pointB : Location := { lat := 18, lon := 79.5 }

/-- A success body for `pointA`, with every field of the response. -/
def cropBody : JsVal :=
  .obj (JsFields.ofList [
    ("prediction_label", .str "CROP"),
    ("confidence", .num 0.75 "0.75"),
    ("coordinates", .obj (JsFields.ofList [("lat", .num 17.5 "17.5"), ("lon", .num 79 "79")])),
    ("chart_data", .obj (JsFields.ofList [
      ("months", .arr (JsItems.ofList [.str "2020-06", .str "2020-07"])),
      ("ndvi_values", .arr (JsItems.ofList [.num 0.5 "0.5", .num 0.25 "0.25"])),
      ("ndwi_values", .arr (JsItems.ofList [.num 0 "0", .num 0.125 "0.125"])),
      ("bsi_values", .arr (JsItems.ofList [.num 0 "0", .num 0 "0"]))])),
    ("subclass_metrics", .obj (JsFields.ofList [("ndwi_mean", .null), ("bsi_mean", .null)])),
    ("report_details", .obj (JsFields.ofList [("model_version", .str "2020-2021")]))])

/-- The error body `{error: "model unavailable"}`. -/
def unavailableBody : JsVal :=
  .obj (JsFields.ofList [("error", .str "model unavailable")])

/-- A boundary document with one feature, the box from 76 to 85 of longitude and from 12
to 20 of latitude. -/
def sampleBoundary : GeoJson :=
  GeoJson.mk [Feature.mk (Geometry.mk (fun p =>
    decide (76 ≤ p.1) && decide (p.1 ≤ 85) && decide (12 ≤ p.2) && decide (p.2 ≤ 20)))]

/-- A mask document with no feature. -/
def sampleMask : GeoJson :=
  { features := [] }

/-- The point (10.0, 70.0), outside `sampleBoundary`. -/
def pointOutside : Location := { lat := 10, lon := 70 }

/-- The page after the boundary has loaded, `pointA` was selected and its year confirmed:
one request is in flight. -/
def oneRequest : List MapEvent :=
  [.boundaryLoaded sampleBoundary sampleMask, .locationSelect pointA, .analyzeClick]

/-- Two requests in a row: after `oneRequest`, `pointB` is selected and confirmed for the
season 2022-2023 while the first request is still in flight. -/
def twoRequests : List MapEvent :=
  oneRequest ++ [.locationSelect pointB, .yearChange "2022-2023", .analyzeClick]

/-- The text after an optional sign. -/
def afterSign (cs : List Char) : List Char :=
  match cs with
  | '-' :: rest => rest
  | '+' :: rest => rest
  | _ => cs

/-- Whether a text starts, after white space and an optional sign, with a numeric literal:
with `Infinity`, with a digit, or with a point and a digit. -/
def startsWithNumber (text : String) : Bool :=
  let body := afterSign (text.toList.dropWhile isStrWhiteSpaceChar)
  "Infinity".toList.isPrefixOf body ||
    (match body with
      | [] => false
      | c :: rest =>
        c.isDigit ||
          (c == '.' && (match rest with
            | [] => false
            | d :: _ => d.isDigit)))

/-- What follows the exponent part at the start of a text; the text itself when it starts
with no exponent part. -/
def afterExponent (cs : List Char) : List Char :=
  match cs with
  | [] => []
  | c :: rest =>
    if c = 'e' || c = 'E' then
      if ((afterSign rest).takeWhile Char.isDigit).isEmpty then c :: rest
      else (afterSign rest).dropWhile Char.isDigit
    else c :: rest

/-- What follows the numeric literal at the start of a text, `none` when the text starts
with no numeric literal. -/
def afterLiteral (body : List Char) : Option (List Char) :=
  if "Infinity".toList.isPrefixOf body then some (body.drop 8)
  else
    let intDigits := body.takeWhile Char.isDigit
    let afterInt := body.dropWhile Char.isDigit
    let fracDigits :=
      match afterInt with
      | '.' :: rest => rest.takeWhile Char.isDigit
      | _ => []
    let afterFrac :=
      match afterInt with
      | '.' :: rest => rest.dropWhile Char.isDigit
      | _ => afterInt
    if intDigits.isEmpty && fracDigits.isEmpty then none
    else some (afterExponent afterFrac)

/-- Whether a text is a number: all of it, apart from white space around it, is one numeric
literal with an optional sign. -/
def isNumberText (text : String) : Bool :=
  match afterLiteral (afterSign (text.toList.dropWhile isStrWhiteSpaceChar)) with
  | some rest => rest.all isStrWhiteSpaceChar
  | none => false

/-- Whether an event passes a location up to the page. -/
def MapEvent.selectsLocation : MapEvent → Bool
  | .locationSelect _ => true
  | .mapClick _ _ _ => true
  | .coordSearch _ _ => true
  | _ => false

/-! ## Numbers written as text -/

/-- The character of a decimal digit. -/
def digitChar (d : Nat) : Char :=
  Char.ofNat (48 + d)

/-- The last `f` decimal digits of `n`, with leading zeros. -/
def lastDigits (n f : Nat) : List Char :=
  (List.range f).map (fun i => digitChar ((n / 10 ^ (f - 1 - i)) % 10))

/-- The integer `n` for which `n / 10 ^ f` is nearest to the magnitude of `val`, the larger
one of two that are equally near. -/
def roundedScaled (val : Rat) (f : Nat) : Nat :=
  (⌊(if val < 0 then - val else val) * 10 ^ f + 1 / 2⌋).toNat

/-- JavaScript `x.toFixed(f)` on the number of value `val` whose `String(x)` is `text`: a
number of magnitude 10^21 or more is written as `String(x)`; any other by its sign, the
digits of the rounded value, and `f` digits after the point. -/
def toFixed (val : Rat) (text : String) (f : Nat) : String :=
  if (10 : Rat) ^ 21 ≤ (if val < 0 then - val else val) then text
  else
    let n := roundedScaled val f
    let sign := if val < 0 then "-" else ""
    if f = 0 then sign ++ Nat.repr n
    else sign ++ Nat.repr (n / 10 ^ f) ++ "." ++ String.mk (lastDigits n f)

/-- Message of the `TypeError` raised by calling a property that is no function (V8
wording). -/
def notFunctionMessage (path : String) : String :=
  path ++ " is not a function"

/-- The call `v.toFixed(f)` on a value reached by the expression `path`: the text for a
number, a `TypeError` for any other value. -/
def JsVal.callToFixed (v : JsVal) (f : Nat) (path : String) : Except String String :=
  match v with
  | .num val text => .ok (toFixed val text f)
  | .undefined => .error (undefinedReadMessage "toFixed")
  | .null => .error (nullReadMessage "toFixed")
  | _ => .error (notFunctionMessage (path ++ ".toFixed"))

namespace ResultsDisplay

/-- The name `handleDownload` gives the exported image,
`crop_report_${coordinates.lat.toFixed(4)}_${coordinates.lon.toFixed(4)}.jpg`, or the
message of the error raised on the way. -/
def downloadName (data : JsVal) : Except String String :=
  match data.getProp "coordinates" with
  | .error message => .error message
  | .ok coordinates =>
    match coordinates.getProp "lat" with
    | .error message => .error message
    | .ok lat =>
      match lat.callToFixed 4 "coordinates.lat" with
      | .error message => .error message
      | .ok latText =>
        match coordinates.getProp "lon" with
        | .error message => .error message
        | .ok lon =>
          match lon.callToFixed 4 "coordinates.lon" with
          | .error message => .error message
          | .ok lonText => .ok ("crop_report_" ++ latText ++ "_" ++ lonText ++ ".jpg")

/-- The text of one average of the coordinates box,
`metric ? metric.toFixed(3) : 'N/A'`. -/
def metricText (metric : JsVal) (path : String) : Except String String :=
  if metric.truthy then metric.callToFixed 3 path else .ok "N/A"

/-- The text after "NDWI Avg:" for a result. -/
def ndwiAvg (data : JsVal) : Except String String :=
  match data.getProp "subclass_metrics" with
  | .error message => .error message
  | .ok subclass_metrics =>
    match subclass_metrics.getProp "ndwi_mean" with
    | .error message => .error message
    | .ok ndwi_mean => metricText ndwi_mean "subclass_metrics.ndwi_mean"

/-- The text after "BSI Avg:" for a result. -/
def bsiAvg (data : JsVal) : Except String String :=
  match data.getProp "subclass_metrics" with
  | .error message => .error message
  | .ok subclass_metrics =>
    match subclass_metrics.getProp "bsi_mean" with
    | .error message => .error message
    | .ok bsi_mean => metricText bsi_mean "subclass_metrics.bsi_mean"

end ResultsDisplay

/-- A text that writes the number `x` with exactly `f` decimal places, rounded to the
nearest: a minus sign for a negative number, the decimal digits of a whole part, a point,
and `f` digits, the value so written being within half a unit of the last place of the
magnitude of `x`, the upper one of two equally near. -/
def WritesRounded (s : String) (x : Rat) (f : Nat) : Prop :=
  ∃ (whole : Nat) (frac : String),
    s = (if x < 0 then "-" else "") ++ Nat.repr whole ++ "." ++ frac ∧
    frac.length = f ∧
    (∀ c ∈ frac.toList, c.isDigit = true) ∧
    |x| - 1 / (2 * 10 ^ f) < (whole : Rat) + (digitsValue frac.toList : Rat) / 10 ^ f ∧
    (whole : Rat) + (digitsValue frac.toList : Rat) / 10 ^ f ≤ |x| + 1 / (2 * 10 ^ f)

/-! ## The load of the boundary documents -/

/-- A response to the request for a boundary document: its `ok` flag and what `res.json()`
gives. A body that parses is taken to be a feature collection. -/
structure DocResponse where
  ok : Bool
  json : Except String GeoJson

/-- How the request for a boundary document settles. -/
inductive DocFetch where
  | rejected (message : String)
  | responded (r : DocResponse)

namespace MapPage

/-- One entry of the `Promise.all` of the load effect:
`fetch(path).then(res => { if (!res.ok) throw new Error(...); return res.json(); })`. -/
def readDocument (name : String) (o : DocFetch) : Except String GeoJson :=
  match o with
  | .rejected message => .error message
  | .responded r =>
    if !r.ok then .error ("Could not find " ++ name)
    else r.json

/-- The load effect once both requests have settled: the `then` runs when both entries
are there, the `catch` (which only logs) otherwise. The effect runs once, at mount. -/
def loadEffect (boundary mask : DocFetch) (s : MapPageState) : MapPageState :=
  match readDocument "StateBoundary.json" boundary, readDocument "StateMask.geojson" mask with
  | .ok b, .ok m => boundaryLoaded b m s
  | _, _ => s

/-- Whether an event is a year confirmation made with a pending location: Analyze is
pressed while a location is stored. -/
def isConfirmation (s : MapPageState) : MapEvent → Bool
  | .analyzeClick => s.locationToAnalyze.isSome
  | _ => false

/-- The number of year confirmations made with a pending location in a sequence of
events, from a given state. -/
def confirmations (s : MapPageState) : List MapEvent → Nat
  | [] => 0
  | e :: es => (if isConfirmation s e then 1 else 0) + confirmations (step s e) es

/-- Two states with the same workflow variables, selected year and log of requests. -/
def SameWorkflow (s t : MapPageState) : Prop :=
  t.uiState = s.uiState ∧ t.apiResult = s.apiResult ∧ t.clickedPoint = s.clickedPoint ∧
    t.fetches = s.fetches ∧ t.selectedYear = s.selectedYear

end MapPage

/-- Whether a boundary document is missing or fails to load: the request fails, the
response is not `ok`, or its body does not parse. -/
def DocFetch.failed : DocFetch → Bool
  | .rejected _ => true
  | .responded r =>
    !r.ok || (match r.json with
      | .error _ => true
      | .ok _ => false)

/-- Whether an event is the load of the boundary documents. -/
def MapEvent.isLoad : MapEvent → Bool
  | .boundaryLoaded _ _ => true
  | _ => false

/-- A success body, with every field of the response, whose NDWI average is 0 and whose
BSI average is 0.5. -/
def zeroMetricBody : JsVal :=
  .obj (JsFields.ofList [
    ("prediction_label", .str "NON-CROP (Barren Soil)"),
    ("confidence", .num 0.75 "0.75"),
    ("coordinates", .obj (JsFields.ofList [("lat", .num 17.5 "17.5"), ("lon", .num 79 "79")])),
    ("chart_data", .obj (JsFields.ofList [
      ("months", .arr (JsItems.ofList [.str "2020-06", .str "2020-07"])),
      ("ndvi_values", .arr (JsItems.ofList [.num 0.125 "0.125", .num 0.25 "0.25"])),
      ("ndwi_values", .arr (JsItems.ofList [.num 0 "0", .num 0 "0"])),
      ("bsi_values", .arr (JsItems.ofList [.num 0.5 "0.5", .num 0.5 "0.5"]))])),
    ("subclass_metrics", .obj (JsFields.ofList
      [("ndwi_mean", .num 0 "0"), ("bsi_mean", .num 0.5 "0.5")])),
    ("report_details", .obj (JsFields.ofList [("model_version", .str "2020-2021")]))])

/-- The states the page can reach from its mount. -/
def MapPage.Reachable (s : MapPageState) : Prop :=
  ∃ events : List MapEvent, s = MapPage.run MapPage.init events

/-- The page showing a result: after `oneRequest`, the request is answered with status 200
and `cropBody`. -/
def resultShown : List MapEvent :=
  oneRequest ++ [.settle 0 (.responded { status := 200, json := .ok cropBody })]

/-- A success body as `cropBody`, its coordinates being those of `pointB`. -/
def cropBodyAtB : JsVal :=
  .obj (JsFields.ofList [
    ("prediction_label", .str "CROP"),
    ("confidence", .num 0.75 "0.75"),
    ("coordinates", .obj (JsFields.ofList [("lat", .num 18 "18"), ("lon", .num 79.5 "79.5")])),
    ("chart_data", .obj (JsFields.ofList [
      ("months", .arr (JsItems.ofList [.str "2020-06", .str "2020-07"])),
      ("ndvi_values", .arr (JsItems.ofList [.num 0.5 "0.5", .num 0.25 "0.25"])),
      ("ndwi_values", .arr (JsItems.ofList [.num 0 "0", .num 0.125 "0.125"])),
      ("bsi_values", .arr (JsItems.ofList [.num 0 "0", .num 0 "0"]))])),
    ("subclass_metrics", .obj (JsFields.ofList [("ndwi_mean", .null), ("bsi_mean", .null)])),
    ("report_details", .obj (JsFields.ofList [("model_version", .str "2020-2021")]))])

/-- The page showing a result whose coordinates are not those sent: after `oneRequest`,
the request for `pointA` is answered with status 200 and `cropBodyAtB`. -/
def resultAtB : List MapEvent :=
  oneRequest ++ [.settle 0 (.responded { status := 200, json := .ok cropBodyAtB })]

/-- The page showing an error: after `oneRequest`, the call of `fetch` fails. -/
def errorShown : List MapEvent :=
  oneRequest ++ [.settle 0 (.rejected "Failed to fetch")]

/-- The page with the sample boundary loaded. -/
def boundaryReady : List MapEvent :=
  [.boundaryLoaded sampleBoundary sampleMask]

/-- The idle page with `pointA` pending and the year selection open. -/
def pendingA : List MapEvent :=
  boundaryReady ++ [.locationSelect pointA]

/-- Candidates the provider gives for "Hyder". -/
def hyderResults : List Candidate :=
  [{ label := "Hyder, Alaska", x := -130, y := 56 }]

/-- Candidates the provider gives for "Hyderabad", seven of them. -/
def hyderabadResults : List Candidate :=
  [{ label := "Hyderabad, Telangana", x := 78.5, y := 17.5 },
   { label := "Hyderabad, Sindh", x := 68.5, y := 25.5 },
   { label := "Hyderabad district", x := 78.5, y := 17.25 },
   { label := "Hyderabad airport", x := 78.5, y := 17.125 },
   { label := "Hyderabad station", x := 78.25, y := 17.5 },
   { label := "Hyderabad road", x := 78, y := 17 },
   { label := "Hyderabad colony", x := 77, y := 16 }]

/-- The texts "Hyder" and then "Hyderabad" are typed 400 ms apart, so that both are
searched; both searches are in flight. -/
def twoSearches : List SearchEvent :=
  [.input 0 "Hyder", .tick 300, .input 400 "Hyderabad", .tick 700]

/-- The text "Hyder" is searched, then the input is shortened to "Hyd" while the search
is in flight. -/
def shortenedSearch : List SearchEvent :=
  [.input 0 "Hyder", .tick 300, .input 400 "Hyd"]

/-- The timer discipline of the search box: timer ids are positive, and a pending timer is
the only one and is the one `debounceTimeout.current` names. -/
def LocationSearch.Inv (s : LocationSearchState) : Prop :=
  s.nextTimerId ≠ 0 ∧
    (s.timers = [] ∨ ∃ t : Timer, s.timers = [t] ∧ s.debounceTimeout = some t.id ∧ t.id ≠ 0)

/-! ## Strings -/

set_option exponentiation.threshold 2048

theorem includesList_iff (sub cs : List Char) :
    includesList sub cs = true ↔ sub <:+: cs := by
  induction cs with
  | nil => simp [includesList]
  | cons c cs ih =>
    rw [includesList, Bool.or_eq_true, ih, List.isPrefixOf_iff_prefix, List.infix_cons_iff]

theorem includes_iff (s sub : String) : includes s sub = true ↔ Contains s sub := by
  unfold includes Contains
  rw [includesList_iff]
  constructor
  · rintro ⟨a, b, h⟩
    refine ⟨String.mk a, String.mk b, String.ext ?_⟩
    simpa using h.symm
  · rintro ⟨pre, post, h⟩
    refine ⟨pre.data, post.data, ?_⟩
    rw [h]
    simp

/-! ## ResultsDisplay: default chart series and labels -/

/-- C2: for every prediction label string the default chart series is NDVI when the label
equals "CROP", NDWI when it is not "CROP" and contains "Water", and BSI for every other
label. -/
theorem default_series_of_label (label : String) :
    (label = "CROP" → ResultsDisplay.activeChartKeyEffect label = ChartKey.NDVI) ∧
    (label ≠ "CROP" → Contains label "Water" →
      ResultsDisplay.activeChartKeyEffect label = ChartKey.NDWI) ∧
    (label ≠ "CROP" → ¬ Contains label "Water" →
      ResultsDisplay.activeChartKeyEffect label = ChartKey.BSI) := by
  refine ⟨?_, ?_, ?_⟩
  · intro h
    simp [ResultsDisplay.activeChartKeyEffect, h]
  · intro h hw
    have hi : includes label "Water" = true := (includes_iff _ _).2 hw
    simp [ResultsDisplay.activeChartKeyEffect, h, hi]
  · intro h hw
    have hi : includes label "Water" = false := by
      cases hb : includes label "Water" with
      | false => rfl
      | true => exact absurd ((includes_iff _ _).1 hb) hw
    simp [ResultsDisplay.activeChartKeyEffect, h, hi]

/-- The three cases of C2 at "CROP", at "NON-CROP (Water)" and at
"NON-CROP (Barren Soil)". -/
theorem default_series_of_label_witness :
    ResultsDisplay.activeChartKeyEffect "CROP" = ChartKey.NDVI ∧
    ResultsDisplay.activeChartKeyEffect "NON-CROP (Water)" = ChartKey.NDWI ∧
    ResultsDisplay.activeChartKeyEffect "NON-CROP (Barren Soil)" = ChartKey.BSI :=
  ⟨(default_series_of_label "CROP").1 rfl,
   (default_series_of_label "NON-CROP (Water)").2.1 (by decide)
     ⟨"NON-CROP (", ")", by decide⟩,
   (default_series_of_label "NON-CROP (Barren Soil)").2.2 (by decide)
     (fun h => absurd ((includes_iff _ _).2 h) (by decide))⟩

/-- C3: over the four labels of the data model the default series is NDVI for CROP, NDWI
for NON_CROP_WATER, and BSI for NON_CROP_BARREN and NON_CROP_OTHER; the style class the
label fix computes tells the four apart. -/
theorem default_series_of_enumerated_label (l : Label) :
    ResultsDisplay.activeChartKeyEffect l.text =
        (match l with
          | .CROP => ChartKey.NDVI
          | .NON_CROP_WATER => ChartKey.NDWI
          | .NON_CROP_BARREN => ChartKey.BSI
          | .NON_CROP_OTHER => ChartKey.BSI) ∧
      ResultsDisplay.labelClass l.text =
        (match l with
          | .CROP => "CROP"
          | .NON_CROP_WATER => "WATER"
          | .NON_CROP_BARREN => "BARREN"
          | .NON_CROP_OTHER => "NON-CROP") := by
  cases l <;> exact ⟨by decide, by decide⟩

/-- C4: for every prediction label, mainLabel is "CROP" if and only if the label equals
"CROP", and it is "NON-CROP" for every other label. -/
theorem mainLabel_crop_iff (label : String) :
    (ResultsDisplay.mainLabel label = "CROP" ↔ label = "CROP") ∧
    (ResultsDisplay.mainLabel label = "NON-CROP" ↔ label ≠ "CROP") := by
  unfold ResultsDisplay.mainLabel ResultsDisplay.labelFix
  by_cases h : label = "CROP"
  · simp [h]
  · simp only [h, if_false]
    split_ifs <;> simp [h]

/-- C5: the sub-label is empty, and no sub-label element is rendered, exactly when
mainLabel is "CROP"; a NON-CROP label carries the Water text when it contains "Water",
else the Barren Soil text when it contains "Barren", else the Built-up/Other text, so
exactly one of the three. -/
theorem subLabel_cases (label : String) :
    (ResultsDisplay.subLabel label = "" ↔ ResultsDisplay.mainLabel label = "CROP") ∧
    (ResultsDisplay.subLabelElement label = none ↔
      ResultsDisplay.mainLabel label = "CROP") ∧
    (ResultsDisplay.mainLabel label = "NON-CROP" →
      ResultsDisplay.subLabelElement label = some (ResultsDisplay.subLabel label) ∧
      (Contains label "Water" →
        ResultsDisplay.subLabel label = "(Identified as Water)") ∧
      (¬ Contains label "Water" → Contains label "Barren" →
        ResultsDisplay.subLabel label = "(Identified as Barren Soil)") ∧
      (¬ Contains label "Water" → ¬ Contains label "Barren" →
        ResultsDisplay.subLabel label = "(Identified as Built-up/Other)")) := by
  simp only [← includes_iff]
  unfold ResultsDisplay.subLabelElement ResultsDisplay.subLabel ResultsDisplay.mainLabel
    ResultsDisplay.labelFix
  by_cases h : label = "CROP"
  · subst h
    simp
  · simp only [h, if_false]
    by_cases hw : includes label "Water" = true
    · simp [hw]
    · by_cases hb : includes label "Barren" = true
      · simp [hw, hb]
      · simp [hw, hb]

/-- The cases of C5 at the texts of the three NON-CROP labels. -/
theorem subLabel_cases_witness :
    ResultsDisplay.subLabel "NON-CROP (Water)" = "(Identified as Water)" ∧
    ResultsDisplay.subLabel "NON-CROP (Barren Soil)" = "(Identified as Barren Soil)" ∧
    ResultsDisplay.subLabel "NON-CROP (Built-up/Other)" =
      "(Identified as Built-up/Other)" :=
  ⟨((subLabel_cases "NON-CROP (Water)").2.2 (by decide)).2.1
     ⟨"NON-CROP (", ")", by decide⟩,
   ((subLabel_cases "NON-CROP (Barren Soil)").2.2 (by decide)).2.2.1
     (fun h => absurd ((includes_iff _ _).2 h) (by decide))
     ⟨"NON-CROP (", " Soil)", by decide⟩,
   ((subLabel_cases "NON-CROP (Built-up/Other)").2.2 (by decide)).2.2.2
     (fun h => absurd ((includes_iff _ _).2 h) (by decide))
     (fun h => absurd ((includes_iff _ _).2 h) (by decide))⟩

/-! ## MapPage: requests and responses -/

theorem MapPage.run_append (s : MapPageState) (xs ys : List MapEvent) :
    MapPage.run s (xs ++ ys) = MapPage.run (MapPage.run s xs) ys := by
  simp [MapPage.run, List.foldl_append]

/-- A property kept by every event holds after every sequence of events. -/
theorem MapPage.run_induction (P : MapPageState → Prop)
    (hstep : ∀ s e, P s → P (MapPage.step s e)) (s : MapPageState) (hs : P s)
    (events : List MapEvent) : P (MapPage.run s events) := by
  induction events generalizing s with
  | nil => exact hs
  | cons e es ih => exact ih (MapPage.step s e) (hstep s e hs)

theorem MapPage.fetchPredictionResume_frame (o : FetchOutcome) (s : MapPageState) :
    (MapPage.fetchPredictionResume o s).clickedPoint = s.clickedPoint ∧
    (MapPage.fetchPredictionResume o s).mapIsReady = s.mapIsReady ∧
    (MapPage.fetchPredictionResume o s).isModalOpen = s.isModalOpen ∧
    (MapPage.fetchPredictionResume o s).locationToAnalyze = s.locationToAnalyze ∧
    (MapPage.fetchPredictionResume o s).selectedYear = s.selectedYear ∧
    (MapPage.fetchPredictionResume o s).flyTos = s.flyTos ∧
    (MapPage.fetchPredictionResume o s).fetches = s.fetches ∧
    (MapPage.fetchPredictionResume o s).inFlight = s.inFlight := by
  unfold MapPage.fetchPredictionResume
  cases MapPage.fetchPredictionTry o <;> simp

/-- The shapes of what a click on the map does. -/
theorem MapPage.click_shape (latlng : Location) (inBounds onMask : Bool)
    (s : MapPageState) :
    BoundaryController.click latlng inBounds onMask s = s ∨
    BoundaryController.click latlng inBounds onMask s
      = MapPage.handleLocationSelect latlng s := by
  unfold BoundaryController.click MapClickHandler.click
  split_ifs
  · exact Or.inl rfl
  · exact Or.inr rfl
  · exact Or.inl rfl

/-- The coordinate search on a text that gives no number: the notice, and nothing else. -/
theorem CoordSearch.handleSearch_nan (latInput lonInput : String) (s : MapPageState)
    (h : (isNaN (parseFloat latInput) || isNaN (parseFloat lonInput)) = true) :
    CoordSearch.handleSearch latInput lonInput s
      = MapPage.alert MapPage.invalidNumberNotice s := by
  unfold CoordSearch.handleSearch
  simp [h]

/-- The coordinate search while the boundary document is missing. -/
theorem CoordSearch.handleSearch_not_ready (latInput lonInput : String) (s : MapPageState)
    (h : (isNaN (parseFloat latInput) || isNaN (parseFloat lonInput)) = false)
    (hg : s.geoJsonData = none) :
    CoordSearch.handleSearch latInput lonInput s
      = MapPage.alert MapPage.notReadyNotice s := by
  unfold CoordSearch.handleSearch
  simp [h, hg]

/-- The coordinate search on two texts that give finite numbers, the boundary loaded. -/
theorem CoordSearch.handleSearch_finite (latInput lonInput : String) (s : MapPageState)
    (lat lon : Rat) (g : GeoJson) (hla : parseFloat latInput = .finite lat)
    (hlo : parseFloat lonInput = .finite lon) (hg : s.geoJsonData = some g) :
    CoordSearch.handleSearch latInput lonInput s
      = if MapPage.isInside g lon lat then
          (if MapPage.mapRef s then MapPage.handleLocationSelect { lat := lat, lon := lon } s
            else s)
        else MapPage.alert MapPage.outsideNotice s := by
  unfold CoordSearch.handleSearch
  simp [hla, hlo, hg, isNaN]

/-- The coordinate search on a text that gives an infinity, the boundary loaded. -/
theorem CoordSearch.handleSearch_infinite (latInput lonInput : String) (s : MapPageState)
    (g : GeoJson)
    (h : (isNaN (parseFloat latInput) || isNaN (parseFloat lonInput)) = false)
    (hinf : (∃ n, parseFloat latInput = .infinity n) ∨ (∃ n, parseFloat lonInput = .infinity n))
    (hg : s.geoJsonData = some g) :
    CoordSearch.handleSearch latInput lonInput s
      = MapPage.alert MapPage.outsideNotice s := by
  unfold CoordSearch.handleSearch
  rcases hinf with ⟨n, hn⟩ | ⟨n, hn⟩
  · simp [hn, hg, isNaN] at h ⊢
    simp [h]
  · cases hla : parseFloat latInput with
    | nan => simp [hla, isNaN] at h
    | infinity m => simp [hn, hg, isNaN]
    | finite a => simp [hn, hg, isNaN]

/-- The shapes of what the coordinate search does: a notice, a location passed up, or
nothing. -/
theorem MapPage.coordSearch_shape (latInput lonInput : String) (s : MapPageState) :
    (∃ m, CoordSearch.handleSearch latInput lonInput s = MapPage.alert m s) ∨
    (∃ loc, CoordSearch.handleSearch latInput lonInput s
      = MapPage.handleLocationSelect loc s) ∨
    CoordSearch.handleSearch latInput lonInput s = s := by
  cases hn : (isNaN (parseFloat latInput) || isNaN (parseFloat lonInput)) with
  | true => exact Or.inl ⟨_, CoordSearch.handleSearch_nan _ _ s hn⟩
  | false =>
    cases hg : s.geoJsonData with
    | none => exact Or.inl ⟨_, CoordSearch.handleSearch_not_ready _ _ s hn hg⟩
    | some g =>
      cases hla : parseFloat latInput with
      | nan => simp [hla, isNaN] at hn
      | infinity n =>
        exact Or.inl ⟨_, CoordSearch.handleSearch_infinite _ _ s g hn (Or.inl ⟨n, hla⟩) hg⟩
      | finite la =>
        cases hlo : parseFloat lonInput with
        | nan => simp [hlo, isNaN] at hn
        | infinity n =>
          exact Or.inl ⟨_, CoordSearch.handleSearch_infinite _ _ s g hn (Or.inr ⟨n, hlo⟩) hg⟩
        | finite lo =>
          rw [CoordSearch.handleSearch_finite _ _ s la lo g hla hlo hg]
          by_cases hi : MapPage.isInside g lo la = true
          · by_cases hm : MapPage.mapRef s = true
            · exact Or.inr (Or.inl ⟨{ lat := la, lon := lo }, by simp [hi, hm]⟩)
            · exact Or.inr (Or.inr (by simp [hi, hm]))
          · exact Or.inl ⟨MapPage.outsideNotice, by simp [hi]⟩

/-- The shapes of what a result of the map search control does: a notice or a map
movement. -/
theorem MapPage.searchResult_shape (x y : Rat) (s : MapPageState) :
    (∃ m, MapSearchComponent.onSearchResult x y s = MapPage.alert m s) ∨
    MapSearchComponent.onSearchResult x y s = MapPage.flyTo y x 12 s := by
  unfold MapSearchComponent.onSearchResult
  cases s.geoJsonData with
  | none => exact Or.inl ⟨_, rfl⟩
  | some g =>
    simp only
    split_ifs
    · exact Or.inr rfl
    · exact Or.inl ⟨_, rfl⟩

theorem MapPage.click_frame (latlng : Location) (inBounds onMask : Bool)
    (s : MapPageState) :
    (BoundaryController.click latlng inBounds onMask s).mapIsReady = s.mapIsReady ∧
    (BoundaryController.click latlng inBounds onMask s).geoJsonData = s.geoJsonData ∧
    (BoundaryController.click latlng inBounds onMask s).maskData = s.maskData ∧
    (BoundaryController.click latlng inBounds onMask s).fetches = s.fetches := by
  rcases MapPage.click_shape latlng inBounds onMask s with h | h <;> rw [h] <;>
    exact ⟨rfl, rfl, rfl, rfl⟩

theorem MapPage.coordSearch_frame (latInput lonInput : String) (s : MapPageState) :
    (CoordSearch.handleSearch latInput lonInput s).mapIsReady = s.mapIsReady ∧
    (CoordSearch.handleSearch latInput lonInput s).geoJsonData = s.geoJsonData ∧
    (CoordSearch.handleSearch latInput lonInput s).maskData = s.maskData ∧
    (CoordSearch.handleSearch latInput lonInput s).fetches = s.fetches := by
  rcases MapPage.coordSearch_shape latInput lonInput s with ⟨m, h⟩ | ⟨loc, h⟩ | h <;>
    rw [h] <;> exact ⟨rfl, rfl, rfl, rfl⟩

theorem MapPage.searchResult_frame (x y : Rat) (s : MapPageState) :
    (MapSearchComponent.onSearchResult x y s).mapIsReady = s.mapIsReady ∧
    (MapSearchComponent.onSearchResult x y s).geoJsonData = s.geoJsonData ∧
    (MapSearchComponent.onSearchResult x y s).maskData = s.maskData ∧
    (MapSearchComponent.onSearchResult x y s).fetches = s.fetches ∧
    (MapSearchComponent.onSearchResult x y s).isModalOpen = s.isModalOpen ∧
    (MapSearchComponent.onSearchResult x y s).locationToAnalyze = s.locationToAnalyze ∧
    (MapSearchComponent.onSearchResult x y s).uiState = s.uiState ∧
    (MapSearchComponent.onSearchResult x y s).apiResult = s.apiResult ∧
    (MapSearchComponent.onSearchResult x y s).clickedPoint = s.clickedPoint := by
  rcases MapPage.searchResult_shape x y s with ⟨m, h⟩ | h <;>
    rw [h] <;> exact ⟨rfl, rfl, rfl, rfl, rfl, rfl, rfl, rfl, rfl⟩

/-- The shapes of what picking a candidate does to the page: a notice, a map movement, or
nothing. -/
theorem MapPage.resultClick_shape (result : Candidate) (box : LocationSearchState)
    (s : MapPageState) :
    (∃ m, (LocationSearch.onResultClick result box s).2 = MapPage.alert m s) ∨
    (LocationSearch.onResultClick result box s).2
      = MapPage.flyTo result.y result.x 12 s ∨
    (LocationSearch.onResultClick result box s).2 = s := by
  unfold LocationSearch.onResultClick
  cases hg : s.geoJsonData with
  | none => exact Or.inl ⟨MapPage.notReadyNotice, rfl⟩
  | some g =>
    by_cases hi : MapPage.isInside g result.x result.y = true
    · by_cases hm : MapPage.mapRef s = true
      · exact Or.inr (Or.inl (by simp [hi, hm]))
      · exact Or.inr (Or.inr (by simp [hi, hm]))
    · exact Or.inl ⟨MapPage.outsideNotice, by simp [hi]⟩

/-- Picking a candidate of the search box leaves the workflow as it is. -/
theorem MapPage.resultClick_frame (result : Candidate) (box : LocationSearchState)
    (s : MapPageState) :
    (LocationSearch.onResultClick result box s).2.mapIsReady = s.mapIsReady ∧
    (LocationSearch.onResultClick result box s).2.uiState = s.uiState ∧
    (LocationSearch.onResultClick result box s).2.clickedPoint = s.clickedPoint ∧
    (LocationSearch.onResultClick result box s).2.apiResult = s.apiResult ∧
    (LocationSearch.onResultClick result box s).2.isModalOpen = s.isModalOpen ∧
    (LocationSearch.onResultClick result box s).2.locationToAnalyze = s.locationToAnalyze ∧
    (LocationSearch.onResultClick result box s).2.selectedYear = s.selectedYear ∧
    (LocationSearch.onResultClick result box s).2.fetches = s.fetches ∧
    (LocationSearch.onResultClick result box s).2.inFlight = s.inFlight ∧
    (LocationSearch.onResultClick result box s).2.geoJsonData = s.geoJsonData ∧
    (LocationSearch.onResultClick result box s).2.maskData = s.maskData := by
  rcases MapPage.resultClick_shape result box s with ⟨m, h⟩ | h | h <;>
    rw [h] <;> exact ⟨rfl, rfl, rfl, rfl, rfl, rfl, rfl, rfl, rfl, rfl, rfl⟩

/-- A pending location is only ever held with the map mounted. -/
theorem MapPage.pending_location_mounted (events : List MapEvent) :
    (MapPage.run MapPage.init events).locationToAnalyze ≠ none →
      (MapPage.run MapPage.init events).mapIsReady = true := by
  apply MapPage.run_induction
    (fun s => s.locationToAnalyze ≠ none → s.mapIsReady = true)
  · intro s e hs
    cases e with
    | boundaryLoaded boundary mask => intro _; rfl
    | locationSelect location =>
      simp only [MapPage.step, MapPage.mapRef]
      split_ifs with h
      · intro _; simpa [MapPage.handleLocationSelect] using h
      · exact hs
    | mapClick latlng inBounds onMask =>
      simp only [MapPage.step, MapPage.mapRef]
      split_ifs with h
      · intro _
        rw [(MapPage.click_frame _ _ _ _).1]
        exact h
      · exact hs
    | coordSearch latInput lonInput =>
      simp only [MapPage.step]
      split_ifs with h
      · intro _
        rw [(MapPage.coordSearch_frame _ _ _).1]
        simp only [Bool.and_eq_true] at h
        exact h.1
      · exact hs
    | searchResult x y =>
      simp only [MapPage.step, MapPage.mapRef]
      split_ifs with h
      · intro _
        rw [(MapPage.searchResult_frame _ _ _).1]
        exact h
      · exact hs
    | resultClick result =>
      simp only [MapPage.step]
      split_ifs with h
      · intro _
        rw [(MapPage.resultClick_frame result LocationSearch.init s).1]
        exact h
      · exact hs
    | yearChange year =>
      simp only [MapPage.step]
      split_ifs
      · exact hs
      · exact hs
    | analyzeClick =>
      simp only [MapPage.step]
      intro h
      simp [MapPage.handleAnalyzeClick, MapPage.onClose, MapPage.handleStartAnalysis] at h
    | modalClose => exact hs
    | closePanel => exact hs
    | settle i o =>
      simp only [MapPage.step]
      split_ifs
      · obtain ⟨-, h2, -, h4, -⟩ := MapPage.fetchPredictionResume_frame o
          { s with inFlight := s.inFlight.eraseIdx i }
        rw [h2, h4]
        exact hs
      · exact hs
  · intro h
    exact absurd rfl h

theorem JsVal.or_falsy (a b : JsVal) (h : a.truthy = false) : a.or b = b := by
  simp [JsVal.or, h]

theorem JsVal.or_truthy (a b : JsVal) (h : a.truthy = true) : a.or b = a := by
  simp [JsVal.or, h]

/-- The `catch` block: the error state, the message stored under `error`, and the text
shown, which falls back to "An unknown error." for an empty message. -/
theorem MapPage.fetchPredictionResume_error (o : FetchOutcome) (s : MapPageState)
    (message : String) (h : MapPage.fetchPredictionTry o = .error message) :
    (MapPage.fetchPredictionResume o s).uiState = UiState.error ∧
    (MapPage.fetchPredictionResume o s).apiResult
      = .obj (.cons "error" (.str message) .nil) ∧
    MapPage.errorText (MapPage.fetchPredictionResume o s)
      = .str (if message = "" then "An unknown error." else message) := by
  unfold MapPage.errorText MapPage.fetchPredictionResume
  rw [h]
  refine ⟨rfl, rfl, ?_⟩
  by_cases hm : message = ""
  · simp [JsVal.or, JsVal.truthy, hm, JsVal.getPropOpt, JsFields.get]
  · simp [JsVal.or, JsVal.truthy, hm, JsVal.getPropOpt, JsFields.get]

/-- The success path: the result state with the parsed body stored. -/
theorem MapPage.fetchPredictionResume_ok (o : FetchOutcome) (s : MapPageState)
    (data : JsVal) (h : MapPage.fetchPredictionTry o = .ok data) :
    (MapPage.fetchPredictionResume o s).uiState = UiState.result ∧
    (MapPage.fetchPredictionResume o s).apiResult = data := by
  unfold MapPage.fetchPredictionResume
  rw [h]
  exact ⟨rfl, rfl⟩

/-- The `try` block succeeds exactly on a response with a success status whose body
parses. -/
theorem MapPage.fetchPredictionTry_ok_iff (o : FetchOutcome) (data : JsVal) :
    MapPage.fetchPredictionTry o = .ok data ↔
      ∃ status, o = .responded { status := status, json := .ok data } ∧
        Response.ok { status := status, json := .ok data } = true := by
  constructor
  · intro h
    cases o with
    | rejected message => simp [MapPage.fetchPredictionTry] at h
    | responded r =>
      obtain ⟨status, json⟩ := r
      cases json with
      | error message => simp [MapPage.fetchPredictionTry] at h
      | ok d =>
        by_cases hok : Response.ok { status := status, json := .ok d } = true
        · simp only [MapPage.fetchPredictionTry, hok, Bool.not_true] at h
          simp only [Bool.false_eq_true, if_false] at h
          cases h
          exact ⟨status, rfl, hok⟩
        · simp only [Bool.not_eq_true] at hok
          simp only [MapPage.fetchPredictionTry, hok, Bool.not_false, if_true] at h
          cases hg : d.getProp "error" with
          | error m => simp [hg] at h
          | ok e =>
            simp only [hg] at h
            cases ht : (e.or (.str "Server error.")).toStr <;> simp [ht] at h
  · rintro ⟨status, rfl, hok⟩
    simp [MapPage.fetchPredictionTry, hok]

/-- C1, as stated, fails: with two requests in flight and the workflow loading the second,
the late response of the first moves the workflow to the result state and stores the
payload of the first request; a late failure moves it to the error state. -/
theorem stale_response_changes_state :
    (MapPage.run MapPage.init twoRequests).uiState = UiState.loading ∧
    (MapPage.run MapPage.init twoRequests).inFlight.map FetchCall.body =
      [{ lat := 17.5, lon := 79, year := "2020-2021" },
       { lat := 18, lon := 79.5, year := "2022-2023" }] ∧
    (MapPage.run MapPage.init twoRequests).clickedPoint = some (18, 79.5) ∧
    (MapPage.step (MapPage.run MapPage.init twoRequests)
      (.settle 0 (.responded { status := 200, json := .ok cropBody }))).uiState
        = UiState.result ∧
    (MapPage.step (MapPage.run MapPage.init twoRequests)
      (.settle 0 (.responded { status := 200, json := .ok cropBody }))).apiResult
        = cropBody ∧
    (MapPage.step (MapPage.run MapPage.init twoRequests)
      (.settle 0 (.rejected "Failed to fetch"))).uiState = UiState.error :=
  ⟨rfl, rfl, rfl, rfl, rfl, rfl⟩

/-- C1, amended: a response is applied whenever it arrives. Whatever the state of the
workflow and whatever requests were started since, a settling request sets `uiState` and
`apiResult` from its own outcome alone, to the result state with its payload or to the
error state with its message, and leaves the selected point, the modal, the pending
location, the selected year and the logs of map movements and requests as they were. -/
theorem settle_applies_outcome (s : MapPageState) (i : Nat) (o : FetchOutcome)
    (h : i < s.inFlight.length) :
    ((MapPage.step s (.settle i o)).uiState = UiState.result ∨
      (MapPage.step s (.settle i o)).uiState = UiState.error) ∧
    (MapPage.step s (.settle i o)).uiState
      = (MapPage.fetchPredictionResume o MapPage.init).uiState ∧
    (MapPage.step s (.settle i o)).apiResult
      = (MapPage.fetchPredictionResume o MapPage.init).apiResult ∧
    (MapPage.step s (.settle i o)).clickedPoint = s.clickedPoint ∧
    (MapPage.step s (.settle i o)).isModalOpen = s.isModalOpen ∧
    (MapPage.step s (.settle i o)).locationToAnalyze = s.locationToAnalyze ∧
    (MapPage.step s (.settle i o)).selectedYear = s.selectedYear ∧
    (MapPage.step s (.settle i o)).flyTos = s.flyTos ∧
    (MapPage.step s (.settle i o)).fetches = s.fetches ∧
    (MapPage.step s (.settle i o)).inFlight = s.inFlight.eraseIdx i := by
  simp only [MapPage.step, h, if_true]
  obtain ⟨h1, -, h3, h4, h5, h6, h7, h8⟩ := MapPage.fetchPredictionResume_frame o
    { s with inFlight := s.inFlight.eraseIdx i }
  refine ⟨?_, ?_, ?_, h1, h3, h4, h5, h6, h7, h8⟩
  all_goals
    unfold MapPage.fetchPredictionResume
    cases MapPage.fetchPredictionTry o <;> simp

/-- The amended C1 at the two requests of `twoRequests`: the late success of the first
request shows a result while the second is still in flight. -/
theorem settle_applies_outcome_witness :
    0 < (MapPage.run MapPage.init twoRequests).inFlight.length ∧
    (MapPage.step (MapPage.run MapPage.init twoRequests)
      (.settle 0 (.responded { status := 200, json := .ok cropBody }))).uiState
        = UiState.result :=
  ⟨by decide,
   (settle_applies_outcome (MapPage.run MapPage.init twoRequests) 0
      (.responded { status := 200, json := .ok cropBody }) (by decide)).2.1.trans rfl⟩

/-- C6: for every failed prediction request the message of the error state is the error
text of the response body when the body carries one, and a generic failure string
otherwise: "Server error." for a non-success response whose body has no error text, the
message of the failure itself when the call or the parsing of the body failed, and the
text shown is never empty ("An unknown error." stands in for an empty message). -/
theorem error_message_of_failed_request (s : MapPageState) (i : Nat)
    (h : i < s.inFlight.length) :
    (∀ (status : Nat) (data : JsVal) (t : String),
      (Response.ok { status := status, json := .ok data }) = false →
      data.getProp "error" = .ok (.str t) → t ≠ "" →
      (MapPage.step s (.settle i (.responded { status := status, json := .ok data }))).uiState
        = UiState.error ∧
      (MapPage.step s
        (.settle i (.responded { status := status, json := .ok data }))).apiResult
        = .obj (.cons "error" (.str t) .nil) ∧
      MapPage.errorText (MapPage.step s
        (.settle i (.responded { status := status, json := .ok data }))) = .str t) ∧
    (∀ (status : Nat) (data e : JsVal),
      (Response.ok { status := status, json := .ok data }) = false →
      data.getProp "error" = .ok e → e.truthy = false →
      (MapPage.step s (.settle i (.responded { status := status, json := .ok data }))).uiState
        = UiState.error ∧
      MapPage.errorText (MapPage.step s
        (.settle i (.responded { status := status, json := .ok data })))
        = .str "Server error.") ∧
    (∀ (message : String),
      (MapPage.step s (.settle i (.rejected message))).uiState = UiState.error ∧
      MapPage.errorText (MapPage.step s (.settle i (.rejected message)))
        = .str (if message = "" then "An unknown error." else message)) ∧
    (∀ (status : Nat) (message : String),
      (MapPage.step s
        (.settle i (.responded { status := status, json := .error message }))).uiState
        = UiState.error ∧
      MapPage.errorText (MapPage.step s
        (.settle i (.responded { status := status, json := .error message })))
        = .str (if message = "" then "An unknown error." else message)) ∧
    (∀ (o : FetchOutcome), (MapPage.step s (.settle i o)).uiState = UiState.error →
      ∃ m : String, m ≠ "" ∧ MapPage.errorText (MapPage.step s (.settle i o)) = .str m) := by
  simp only [MapPage.step, h, if_true]
  refine ⟨?_, ?_, ?_, ?_, ?_⟩
  · intro status data t hok he ht
    have htry : MapPage.fetchPredictionTry
        (.responded { status := status, json := .ok data }) = .error t := by
      have hor : (JsVal.str t).or (.str "Server error.") = .str t :=
        JsVal.or_truthy _ _ (by simp [JsVal.truthy, ht])
      simp [MapPage.fetchPredictionTry, hok, he, hor, JsVal.toStr]
    obtain ⟨h1, h2, h3⟩ := MapPage.fetchPredictionResume_error _
      { s with inFlight := s.inFlight.eraseIdx i } t htry
    exact ⟨h1, h2, by simpa [ht] using h3⟩
  · intro status data e hok he ht
    have htry : MapPage.fetchPredictionTry
        (.responded { status := status, json := .ok data }) = .error "Server error." := by
      simp [MapPage.fetchPredictionTry, hok, he, JsVal.or_falsy _ _ ht, JsVal.toStr]
    obtain ⟨h1, -, h3⟩ := MapPage.fetchPredictionResume_error _
      { s with inFlight := s.inFlight.eraseIdx i } "Server error." htry
    exact ⟨h1, by simpa using h3⟩
  · intro message
    obtain ⟨h1, -, h3⟩ := MapPage.fetchPredictionResume_error (.rejected message)
      { s with inFlight := s.inFlight.eraseIdx i } message rfl
    exact ⟨h1, h3⟩
  · intro status message
    obtain ⟨h1, -, h3⟩ := MapPage.fetchPredictionResume_error
      (.responded { status := status, json := .error message })
      { s with inFlight := s.inFlight.eraseIdx i } message rfl
    exact ⟨h1, h3⟩
  · intro o
    cases htry : MapPage.fetchPredictionTry o with
    | ok data =>
      intro hu
      rw [(MapPage.fetchPredictionResume_ok o _ data htry).1] at hu
      cases hu
    | error message =>
      intro _
      obtain ⟨-, -, h3⟩ := MapPage.fetchPredictionResume_error o
        { s with inFlight := s.inFlight.eraseIdx i } message htry
      refine ⟨if message = "" then "An unknown error." else message, ?_, h3⟩
      by_cases hm : message = ""
      · simp [hm]
      · simp [hm]

/-- Scenario C: the request in flight after `oneRequest` is answered with status 500 and
the body `{error: "model unavailable"}`; the workflow is in the error state with the
message "model unavailable". -/
theorem error_message_of_failed_request_witness :
    0 < (MapPage.run MapPage.init oneRequest).inFlight.length ∧
    (MapPage.step (MapPage.run MapPage.init oneRequest)
      (.settle 0 (.responded { status := 500, json := .ok unavailableBody }))).uiState
        = UiState.error ∧
    MapPage.errorText (MapPage.step (MapPage.run MapPage.init oneRequest)
      (.settle 0 (.responded { status := 500, json := .ok unavailableBody })))
        = .str "model unavailable" :=
  ⟨by decide,
   ((error_message_of_failed_request (MapPage.run MapPage.init oneRequest) 0
      (by decide)).1 500 unavailableBody "model unavailable" rfl rfl (by decide)).1,
   ((error_message_of_failed_request (MapPage.run MapPage.init oneRequest) 0
      (by decide)).1 500 unavailableBody "model unavailable" rfl rfl (by decide)).2.2⟩

/-- C7, as stated, fails: a success response whose body is the empty object lacks every
required field, and the request ends in the result state with that body stored. -/
theorem missing_fields_end_in_result :
    hasRequiredFields (.obj .nil) = false ∧
    (MapPage.step (MapPage.run MapPage.init oneRequest)
      (.settle 0 (.responded { status := 200, json := .ok (.obj .nil) }))).uiState
        = UiState.result ∧
    (MapPage.step (MapPage.run MapPage.init oneRequest)
      (.settle 0 (.responded { status := 200, json := .ok (.obj .nil) }))).apiResult
        = .obj .nil :=
  ⟨rfl, rfl, rfl⟩

/-- C7, amended: a prediction request ends in the error state if and only if the call
failed in transport, the response has a non-success status, or the body of the response
does not parse as JSON; it ends in the result state if and only if a response with a
success status and a parsed body arrived, and then that body is stored whatever fields it
has. -/
theorem error_state_iff_failure (s : MapPageState) (i : Nat) (o : FetchOutcome)
    (h : i < s.inFlight.length) :
    ((MapPage.step s (.settle i o)).uiState = UiState.error ↔
      (o.transportFailure = true ∨ o.nonSuccessStatus = true ∨ o.unparseableBody = true)) ∧
    ((MapPage.step s (.settle i o)).uiState = UiState.result ↔
      ∃ status data, o = .responded { status := status, json := .ok data } ∧
        200 ≤ status ∧ status ≤ 299) ∧
    (∀ status data, o = .responded { status := status, json := .ok data } →
      200 ≤ status → status ≤ 299 →
      (MapPage.step s (.settle i o)).apiResult = data) := by
  simp only [MapPage.step, h, if_true]
  have key : ∀ data, MapPage.fetchPredictionTry o = .ok data ↔
      ∃ status, o = .responded { status := status, json := .ok data } ∧
        200 ≤ status ∧ status ≤ 299 := by
    intro data
    rw [MapPage.fetchPredictionTry_ok_iff]
    simp [Response.ok]
  have hfail : (∃ data, MapPage.fetchPredictionTry o = .ok data) ↔
      ¬ (o.transportFailure = true ∨ o.nonSuccessStatus = true ∨
        o.unparseableBody = true) := by
    constructor
    · rintro ⟨data, hd⟩
      obtain ⟨status, rfl, h1, h2⟩ := (key data).1 hd
      simp [FetchOutcome.transportFailure, FetchOutcome.nonSuccessStatus,
        FetchOutcome.unparseableBody, Response.ok, h1, h2]
    · intro hn
      cases o with
      | rejected message => simp [FetchOutcome.transportFailure] at hn
      | responded r =>
        obtain ⟨status, json⟩ := r
        cases json with
        | error message => simp [FetchOutcome.unparseableBody] at hn
        | ok d =>
          refine ⟨d, (MapPage.fetchPredictionTry_ok_iff _ _).2 ⟨status, rfl, ?_⟩⟩
          simpa [FetchOutcome.transportFailure, FetchOutcome.nonSuccessStatus,
            FetchOutcome.unparseableBody] using hn
  cases htry : MapPage.fetchPredictionTry o with
  | ok data =>
    obtain ⟨h1, h2⟩ := MapPage.fetchPredictionResume_ok o
      { s with inFlight := s.inFlight.eraseIdx i } data htry
    have hex : ∃ data, MapPage.fetchPredictionTry o = .ok data := ⟨data, htry⟩
    refine ⟨?_, ?_, ?_⟩
    · rw [h1]
      constructor
      · intro hc
        cases hc
      · intro hc
        exact absurd hc (hfail.1 hex)
    · rw [h1]
      constructor
      · intro _
        obtain ⟨status, ho, hb⟩ := (key data).1 htry
        exact ⟨status, data, ho, hb⟩
      · intro _
        rfl
    · intro status d ho _ _
      rw [h2]
      rw [ho] at htry
      obtain ⟨status2, heq, -⟩ := (MapPage.fetchPredictionTry_ok_iff _ _).1 htry
      cases heq
      rfl
  | error message =>
    obtain ⟨h1, -, -⟩ := MapPage.fetchPredictionResume_error o
      { s with inFlight := s.inFlight.eraseIdx i } message htry
    have hno : ¬ ∃ data, MapPage.fetchPredictionTry o = .ok data := by
      rintro ⟨data, hd⟩
      rw [htry] at hd
      cases hd
    refine ⟨?_, ?_, ?_⟩
    · rw [h1]
      constructor
      · intro _
        by_contra hc
        exact hno (hfail.2 hc)
      · intro _
        rfl
    · rw [h1]
      constructor
      · intro hc
        cases hc
      · rintro ⟨status, data, ho, hb⟩
        exact absurd ⟨data, (key data).2 ⟨status, ho, hb⟩⟩ hno
    · intro status d ho h1 h2
      exact absurd ⟨d, (key d).2 ⟨status, ho, h1, h2⟩⟩ hno

/-- The amended C7 at the request of `oneRequest`: status 200 with a full body ends in the
result state, status 500 ends in the error state. -/
theorem error_state_iff_failure_witness :
    0 < (MapPage.run MapPage.init oneRequest).inFlight.length ∧
    hasRequiredFields cropBody = true ∧
    (MapPage.step (MapPage.run MapPage.init oneRequest)
      (.settle 0 (.responded { status := 200, json := .ok cropBody }))).uiState
        = UiState.result ∧
    (MapPage.step (MapPage.run MapPage.init oneRequest)
      (.settle 0 (.responded { status := 500, json := .ok unavailableBody }))).uiState
        = UiState.error :=
  ⟨by decide, rfl,
   (error_state_iff_failure (MapPage.run MapPage.init oneRequest) 0
      (.responded { status := 200, json := .ok cropBody }) (by decide)).2.1.2
      ⟨200, cropBody, rfl, by decide, by decide⟩,
   (error_state_iff_failure (MapPage.run MapPage.init oneRequest) 0
      (.responded { status := 500, json := .ok unavailableBody }) (by decide)).1.2
      (Or.inr (Or.inl rfl))⟩

/-- C8: in every state the page can reach, with a pending location `loc`, confirming a
year `y` issues exactly one request, a POST to the prediction endpoint whose body is
`{lat: loc.lat, lon: loc.lon, year: y}`, and the workflow enters the loading state with
the result cleared, the point marked and the pending location consumed; pressing Analyze
in the open modal does so with the year selected in the modal. -/
theorem confirm_year_issues_request (events : List MapEvent) (loc : Location) (y : String)
    (h : (MapPage.run MapPage.init events).locationToAnalyze = some loc) :
    (MapPage.handleStartAnalysis y (MapPage.run MapPage.init events)).fetches
      = (MapPage.run MapPage.init events).fetches ++
        [{ url := API_ENDPOINT, method := "POST", contentType := "application/json",
           body := { lat := loc.lat, lon := loc.lon, year := y } }] ∧
    (MapPage.handleStartAnalysis y (MapPage.run MapPage.init events)).inFlight
      = (MapPage.run MapPage.init events).inFlight ++
        [{ url := API_ENDPOINT, method := "POST", contentType := "application/json",
           body := { lat := loc.lat, lon := loc.lon, year := y } }] ∧
    (MapPage.handleStartAnalysis y (MapPage.run MapPage.init events)).uiState
      = UiState.loading ∧
    (MapPage.handleStartAnalysis y (MapPage.run MapPage.init events)).apiResult = .null ∧
    (MapPage.handleStartAnalysis y (MapPage.run MapPage.init events)).clickedPoint
      = some (loc.lat, loc.lon) ∧
    (MapPage.handleStartAnalysis y (MapPage.run MapPage.init events)).locationToAnalyze
      = none ∧
    ((MapPage.run MapPage.init events).isModalOpen = true →
      MapPage.step (MapPage.run MapPage.init events) .analyzeClick
        = MapPage.onClose (MapPage.handleStartAnalysis
            (MapPage.run MapPage.init events).selectedYear
            (MapPage.run MapPage.init events))) := by
  have hm : (MapPage.run MapPage.init events).mapIsReady = true :=
    MapPage.pending_location_mounted events (by rw [h]; simp)
  refine ⟨?_, ?_, ?_, ?_, ?_, ?_, ?_⟩
  case refine_7 =>
    intro ho
    simp [MapPage.step, ho, MapPage.handleAnalyzeClick]
  all_goals
    simp [MapPage.handleStartAnalysis, h, hm, MapPage.mapRef, MapPage.triggerAnalysis,
      MapPage.fetchPrediction]

/-- Scenario A: the location (17.50, 79.00) is pending and the year "2022-2023" is
confirmed; the request sent carries exactly these three values. -/
theorem confirm_year_issues_request_witness :
    (MapPage.run MapPage.init [.boundaryLoaded sampleBoundary sampleMask, .locationSelect pointA]).locationToAnalyze
      = some pointA ∧
    (MapPage.handleStartAnalysis "2022-2023"
      (MapPage.run MapPage.init [.boundaryLoaded sampleBoundary sampleMask, .locationSelect pointA])).fetches
      = [{ url := "http://127.0.0.1:5000/predict_live", method := "POST",
           contentType := "application/json",
           body := { lat := 17.5, lon := 79, year := "2022-2023" } }] ∧
    (MapPage.handleStartAnalysis "2022-2023"
      (MapPage.run MapPage.init [.boundaryLoaded sampleBoundary sampleMask, .locationSelect pointA])).uiState
      = UiState.loading :=
  ⟨rfl,
   (confirm_year_issues_request [.boundaryLoaded sampleBoundary sampleMask, .locationSelect pointA] pointA
      "2022-2023" rfl).1.trans rfl,
   (confirm_year_issues_request [.boundaryLoaded sampleBoundary sampleMask, .locationSelect pointA] pointA
      "2022-2023" rfl).2.2.1⟩

/-! ## LocationSearch: the debounce timer -/

theorem LocationSearch.runCallbacks_searches (ts : List Timer) (s : LocationSearchState) :
    (LocationSearch.runCallbacks ts s).searches = s.searches ++ ts.map Timer.query ∧
    (LocationSearch.runCallbacks ts s).timers = s.timers ∧
    (LocationSearch.runCallbacks ts s).debounceTimeout = s.debounceTimeout ∧
    (LocationSearch.runCallbacks ts s).nextTimerId = s.nextTimerId ∧
    (LocationSearch.runCallbacks ts s).results = s.results ∧
    (LocationSearch.runCallbacks ts s).query = s.query := by
  induction ts generalizing s with
  | nil => simp [LocationSearch.runCallbacks]
  | cons t ts ih =>
    have h := ih (LocationSearch.timerCallback t.query s)
    simp only [LocationSearch.runCallbacks, List.foldl_cons] at h ⊢
    obtain ⟨h1, h2, h3, h4, h5, h6⟩ := h
    refine ⟨?_, ?_, ?_, ?_, ?_, ?_⟩
    · rw [h1]; simp [LocationSearch.timerCallback]
    · rw [h2]; rfl
    · rw [h3]; rfl
    · rw [h4]; rfl
    · rw [h5]; rfl
    · rw [h6]; rfl

/-- What `handleSearch` does in a state that keeps the timer discipline: the pending timer
is gone, a new one is set exactly for a text longer than 3, and no search is made. -/
theorem LocationSearch.handleSearch_of_inv (now : Nat) (newQuery : String)
    (s : LocationSearchState) (hs : LocationSearch.Inv s) :
    (LocationSearch.handleSearch now newQuery s).timers
      = (if 3 < jsLength newQuery then
          [{ id := s.nextTimerId, due := now + 300, query := newQuery }] else []) ∧
    (LocationSearch.handleSearch now newQuery s).results
      = (if 3 < jsLength newQuery then s.results else []) ∧
    (LocationSearch.handleSearch now newQuery s).searches = s.searches ∧
    (LocationSearch.handleSearch now newQuery s).inFlight = s.inFlight ∧
    (LocationSearch.handleSearch now newQuery s).query = newQuery ∧
    LocationSearch.Inv (LocationSearch.handleSearch now newQuery s) := by
  obtain ⟨hn, ht⟩ := hs
  have hclear : (match s.debounceTimeout with
      | some id => if id ≠ 0 then
          LocationSearch.clearTimeout id { s with query := newQuery }
          else { s with query := newQuery }
      | none => { s with query := newQuery }) = { s with query := newQuery, timers := [] } := by
    rcases ht with ht | ⟨t, ht, hd, hid⟩
    · cases hd : s.debounceTimeout with
      | none => simp [ht]
      | some id => by_cases h0 : id = 0 <;> simp [h0, LocationSearch.clearTimeout, ht]
    · simp [hd, hid, LocationSearch.clearTimeout, ht]
  unfold LocationSearch.handleSearch
  simp only [hclear]
  by_cases hl : 3 < jsLength newQuery
  · simp [hl, LocationSearch.setTimeout, LocationSearch.debounceDelay, LocationSearch.Inv, hn]
  · simp [hl, LocationSearch.Inv, hn]

/-- What the clock does: the timers that are due leave the pending list and their queries
are searched, and the timer discipline is kept. -/
theorem LocationSearch.runTimers_spec (now : Nat) (s : LocationSearchState) :
    (LocationSearch.runTimers now s).searches
      = s.searches ++ (s.timers.filter (fun t => decide (t.due ≤ now))).map Timer.query ∧
    (LocationSearch.runTimers now s).timers
      = s.timers.filter (fun t => !decide (t.due ≤ now)) ∧
    (LocationSearch.Inv s → LocationSearch.Inv (LocationSearch.runTimers now s)) := by
  obtain ⟨h1, h2, h3, h4, -, -⟩ := LocationSearch.runCallbacks_searches
    (s.timers.filter (fun t => decide (t.due ≤ now)))
    { s with timers := s.timers.filter (fun t => !decide (t.due ≤ now)) }
  refine ⟨h1, h2, ?_⟩
  rintro ⟨hn, ht⟩
  unfold LocationSearch.Inv
  unfold LocationSearch.runTimers
  rw [h2, h3, h4]
  refine ⟨hn, ?_⟩
  rcases ht with ht | ⟨t, ht, hd, hid⟩
  · left
    simp [ht]
  · by_cases hdue : t.due ≤ now
    · left
      simp [ht, hdue]
    · right
      exact ⟨t, by simp [ht, hdue], hd, hid⟩

theorem LocationSearch.step_inv (s : LocationSearchState) (e : SearchEvent)
    (hs : LocationSearch.Inv s) : LocationSearch.Inv (LocationSearch.step s e) := by
  cases e with
  | input now text =>
    exact (LocationSearch.handleSearch_of_inv now text _
      ((LocationSearch.runTimers_spec now s).2.2 hs)).2.2.2.2.2
  | tick now => exact (LocationSearch.runTimers_spec now s).2.2 hs
  | settle i r =>
    simp only [LocationSearch.step]
    split_ifs
    · cases r with
      | none => exact hs
      | some searchResults => exact hs
    · exact hs

theorem LocationSearch.init_inv : LocationSearch.Inv LocationSearch.init := by
  simp [LocationSearch.Inv, LocationSearch.init]

/-- Every state the search box can reach keeps the timer discipline. -/
theorem LocationSearch.run_inv (s : LocationSearchState) (hs : LocationSearch.Inv s)
    (events : List SearchEvent) : LocationSearch.Inv (LocationSearch.run s events) := by
  induction events generalizing s with
  | nil => exact hs
  | cons e es ih => exact ih (LocationSearch.step s e) (LocationSearch.step_inv s e hs)

theorem LocationSearch.runAllTimers_searches (s : LocationSearchState) :
    (LocationSearch.runAllTimers s).searches = s.searches ++ s.timers.map Timer.query ∧
    (LocationSearch.runAllTimers s).timers = [] := by
  obtain ⟨h1, h2, -⟩ := LocationSearch.runCallbacks_searches s.timers { s with timers := [] }
  exact ⟨h1, h2⟩

/-- The searches made from a state that an input change `(t, q)` has just left, over the
further input changes `rest` and until every timer has run. -/
theorem LocationSearch.searches_after_input (rest : List (Nat × String)) :
    ∀ (s : LocationSearchState) (t id : Nat) (q : String), LocationSearch.Inv s →
      s.timers = (if 3 < jsLength q then [{ id := id, due := t + 300, query := q }] else []) →
      (LocationSearch.runAllTimers
        (LocationSearch.run s (LocationSearch.typing rest))).searches
        = s.searches ++ unchangedFor300ms ((t, q) :: rest) := by
  induction rest with
  | nil =>
    intro s t id q _ ht
    rw [show LocationSearch.run s (LocationSearch.typing []) = s from rfl,
      (LocationSearch.runAllTimers_searches s).1, ht]
    by_cases hl : 3 < jsLength q
    · have hl4 : 4 ≤ jsLength q := hl
      simp [hl, hl4, unchangedFor300ms]
    · have hl4 : ¬ 4 ≤ jsLength q := hl
      simp [hl, hl4, unchangedFor300ms]
  | cons p rest ih =>
    intro s t id q hs ht
    obtain ⟨t2, q2⟩ := p
    have hrun : LocationSearch.run s (LocationSearch.typing ((t2, q2) :: rest))
        = LocationSearch.run
            (LocationSearch.handleSearch t2 q2 (LocationSearch.runTimers t2 s))
            (LocationSearch.typing rest) := rfl
    obtain ⟨hr1, -, hr3⟩ := LocationSearch.runTimers_spec t2 s
    obtain ⟨hh1, -, hh3, -, -, hh6⟩ := LocationSearch.handleSearch_of_inv t2 q2
      (LocationSearch.runTimers t2 s) (hr3 hs)
    rw [hrun, ih _ t2 (LocationSearch.runTimers t2 s).nextTimerId q2 hh6 hh1, hh3, hr1, ht]
    by_cases hl : 3 < jsLength q
    · have hl4 : 4 ≤ jsLength q := hl
      by_cases hd : t + 300 ≤ t2
      · simp [hl, hl4, hd, unchangedFor300ms]
      · simp [hl, hl4, hd, unchangedFor300ms]
    · have hl4 : ¬ 4 ≤ jsLength q := hl
      simp [hl, hl4, unchangedFor300ms]

/-- C9: in every state the search box can reach, an input text shorter than 4 leaves no
timer pending (the pending one is cancelled and none is set), empties the candidate list
at once and makes no search, then or later; a text of 4 or more sets one timer, due 300 ms
later, whose run sends that text to the provider. -/
theorem short_input_schedules_nothing (events : List SearchEvent) (now : Nat)
    (text : String) :
    (jsLength text < 4 →
      (LocationSearch.handleSearch now text
        (LocationSearch.run LocationSearch.init events)).timers = [] ∧
      (LocationSearch.handleSearch now text
        (LocationSearch.run LocationSearch.init events)).results = [] ∧
      (LocationSearch.handleSearch now text
        (LocationSearch.run LocationSearch.init events)).searches
        = (LocationSearch.run LocationSearch.init events).searches ∧
      (LocationSearch.runAllTimers (LocationSearch.handleSearch now text
        (LocationSearch.run LocationSearch.init events))).searches
        = (LocationSearch.run LocationSearch.init events).searches) ∧
    (4 ≤ jsLength text →
      (LocationSearch.handleSearch now text
        (LocationSearch.run LocationSearch.init events)).timers
        = [{ id := (LocationSearch.run LocationSearch.init events).nextTimerId,
             due := now + 300, query := text }] ∧
      (LocationSearch.handleSearch now text
        (LocationSearch.run LocationSearch.init events)).searches
        = (LocationSearch.run LocationSearch.init events).searches ∧
      (LocationSearch.runAllTimers (LocationSearch.handleSearch now text
        (LocationSearch.run LocationSearch.init events))).searches
        = (LocationSearch.run LocationSearch.init events).searches ++ [text]) := by
  obtain ⟨h1, h2, h3, -, -, -⟩ := LocationSearch.handleSearch_of_inv now text
    (LocationSearch.run LocationSearch.init events)
    (LocationSearch.run_inv _ LocationSearch.init_inv events)
  constructor
  · intro hl
    have hl3 : ¬ 3 < jsLength text := by omega
    simp only [hl3, if_false] at h1 h2
    refine ⟨h1, h2, h3, ?_⟩
    rw [(LocationSearch.runAllTimers_searches _).1, h1, h3]
    simp
  · intro hl
    have hl3 : 3 < jsLength text := by omega
    simp only [hl3, if_true] at h1
    refine ⟨h1, h3, ?_⟩
    rw [(LocationSearch.runAllTimers_searches _).1, h1, h3]
    simp

/-- C9 at a search box in which "Hyder" was typed at time 0: the text "Hyd" at time 100
cancels the pending timer and nothing is ever searched; the text "Hyde" sets a timer due
at 400 and is searched. -/
theorem short_input_schedules_nothing_witness :
    (LocationSearch.run LocationSearch.init [.input 0 "Hyder"]).timers
      = [{ id := 1, due := 300, query := "Hyder" }] ∧
    (LocationSearch.handleSearch 100 "Hyd"
      (LocationSearch.run LocationSearch.init [.input 0 "Hyder"])).timers = [] ∧
    (LocationSearch.runAllTimers (LocationSearch.handleSearch 100 "Hyd"
      (LocationSearch.run LocationSearch.init [.input 0 "Hyder"]))).searches = [] ∧
    (LocationSearch.handleSearch 100 "Hyde"
      (LocationSearch.run LocationSearch.init [.input 0 "Hyder"])).timers
      = [{ id := 2, due := 400, query := "Hyde" }] :=
  ⟨by decide,
   ((short_input_schedules_nothing [.input 0 "Hyder"] 100 "Hyd").1 (by decide)).1,
   ((short_input_schedules_nothing [.input 0 "Hyder"] 100 "Hyd").1 (by decide)).2.2.2,
   ((short_input_schedules_nothing [.input 0 "Hyder"] 100 "Hyde").2 (by decide)).1⟩

/-- C10: at every moment of every run of the search box at most one debounce timer is
pending, and for every timed sequence of input changes the queries sent to the provider
are exactly the inputs of length at least 4 that no other input change followed for
300 ms; typing "Hyder" and then "Hyderabad" less than 300 ms later sends the single
query "Hyderabad". -/
theorem debounce_sends_settled_inputs :
    (∀ events : List SearchEvent,
      (LocationSearch.run LocationSearch.init events).timers.length ≤ 1) ∧
    (∀ timeline : List (Nat × String),
      LocationSearch.queriesSent timeline = unchangedFor300ms timeline) ∧
    (∀ t d : Nat, d < 300 →
      LocationSearch.queriesSent [(t, "Hyder"), (t + d, "Hyderabad")] = ["Hyderabad"]) := by
  have hsent : ∀ timeline : List (Nat × String),
      LocationSearch.queriesSent timeline = unchangedFor300ms timeline := by
    intro timeline
    cases timeline with
    | nil => rfl
    | cons p rest =>
      obtain ⟨t, q⟩ := p
      have hrun : LocationSearch.queriesSent ((t, q) :: rest)
          = (LocationSearch.runAllTimers (LocationSearch.run
              (LocationSearch.handleSearch t q
                (LocationSearch.runTimers t LocationSearch.init))
              (LocationSearch.typing rest))).searches := rfl
      obtain ⟨hr1, -, hr3⟩ := LocationSearch.runTimers_spec t LocationSearch.init
      obtain ⟨hh1, -, hh3, -, -, hh6⟩ := LocationSearch.handleSearch_of_inv t q
        (LocationSearch.runTimers t LocationSearch.init) (hr3 LocationSearch.init_inv)
      rw [hrun, LocationSearch.searches_after_input rest _ t _ q hh6 hh1, hh3, hr1]
      simp [LocationSearch.init]
  refine ⟨?_, hsent, ?_⟩
  · intro events
    obtain ⟨-, ht⟩ := LocationSearch.run_inv _ LocationSearch.init_inv events
    rcases ht with ht | ⟨t, ht, -, -⟩
    · simp [ht]
    · simp [ht]
  · intro t d hd
    rw [hsent]
    have h1 : 4 ≤ jsLength "Hyder" := by decide
    have h2 : 4 ≤ jsLength "Hyderabad" := by decide
    have h3 : ¬ t + 300 ≤ t + d := by omega
    simp [unchangedFor300ms, h1, h2, h3]

/-! ## LocationSearch: responses of the provider -/

/-- C11, as stated, fails: with the searches for "Hyder" and "Hyderabad" both in flight,
the answer to "Hyderabad" is displayed and then replaced by the late answer to the
superseded query "Hyder"; and an answer to "Hyder" that arrives after the input was
shortened to "Hyd", which emptied the list, fills the list again. -/
theorem stale_search_response_displayed :
    (LocationSearch.run LocationSearch.init twoSearches).inFlight = ["Hyder", "Hyderabad"] ∧
    (LocationSearch.run LocationSearch.init twoSearches).query = "Hyderabad" ∧
    (LocationSearch.run LocationSearch.init
      (twoSearches ++ [.settle 1 (some hyderabadResults)])).results
        = hyderabadResults.take 5 ∧
    (LocationSearch.run LocationSearch.init
      (twoSearches ++ [.settle 1 (some hyderabadResults),
        .settle 0 (some hyderResults)])).results = hyderResults ∧
    (LocationSearch.run LocationSearch.init shortenedSearch).results = [] ∧
    (LocationSearch.run LocationSearch.init shortenedSearch).query = "Hyd" ∧
    (LocationSearch.run LocationSearch.init
      (shortenedSearch ++ [.settle 0 (some hyderResults)])).results = hyderResults :=
  ⟨rfl, rfl, rfl, rfl, rfl, rfl, rfl⟩

/-- C11, amended: every answer of the provider is applied when it arrives, whichever query
it answers and whatever was typed since: the displayed list becomes the first 5 candidates
of that answer, and the text, the timers and the log of searches stay as they were; a
search that fails leaves the list as it is. -/
theorem search_response_applied (s : LocationSearchState) (i : Nat)
    (searchResults : List Candidate) (h : i < s.inFlight.length) :
    (LocationSearch.step s (.settle i (some searchResults))).results
      = searchResults.take 5 ∧
    (LocationSearch.step s (.settle i (some searchResults))).query = s.query ∧
    (LocationSearch.step s (.settle i (some searchResults))).timers = s.timers ∧
    (LocationSearch.step s (.settle i (some searchResults))).debounceTimeout
      = s.debounceTimeout ∧
    (LocationSearch.step s (.settle i (some searchResults))).searches = s.searches ∧
    (LocationSearch.step s (.settle i (some searchResults))).inFlight
      = s.inFlight.eraseIdx i ∧
    (LocationSearch.step s (.settle i none)).results = s.results ∧
    (LocationSearch.step s (.settle i none)).inFlight = s.inFlight.eraseIdx i := by
  simp [LocationSearch.step, h, LocationSearch.timerCallbackResume]

/-- The amended C11 at the two searches of `twoSearches`: the answer to the older query,
arriving while the newer one is in flight, is displayed. -/
theorem search_response_applied_witness :
    0 < (LocationSearch.run LocationSearch.init twoSearches).inFlight.length ∧
    (LocationSearch.step (LocationSearch.run LocationSearch.init twoSearches)
      (.settle 0 (some hyderResults))).results = hyderResults :=
  ⟨by decide,
   (search_response_applied (LocationSearch.run LocationSearch.init twoSearches) 0
      hyderResults (by decide)).1.trans rfl⟩

/-- C12: for every result list of the provider, the candidate list stored is its prefix of
length min(5, |r|): at most 5 candidates, the first ones of the list in their order, none
added, none dropped from the middle, none moved. -/
theorem stored_candidates_are_first_five (searchResults : List Candidate)
    (s : LocationSearchState) :
    (LocationSearch.timerCallbackResume searchResults s).results.length
      = min 5 searchResults.length ∧
    (LocationSearch.timerCallbackResume searchResults s).results.length ≤ 5 ∧
    (∃ rest, searchResults
      = (LocationSearch.timerCallbackResume searchResults s).results ++ rest) ∧
    (∀ k, k < min 5 searchResults.length →
      (LocationSearch.timerCallbackResume searchResults s).results[k]?
        = searchResults[k]?) := by
  unfold LocationSearch.timerCallbackResume
  refine ⟨List.length_take _ _, ?_,
    ⟨searchResults.drop 5, (List.take_append_drop 5 searchResults).symm⟩, ?_⟩
  · show (searchResults.take 5).length ≤ 5
    rw [List.length_take]
    omega
  intro k hk
  show (searchResults.take 5)[k]? = searchResults[k]?
  have hk5 : k < 5 := by omega
  rw [List.getElem?_take]
  simp [hk5]

/-- C12 at seven and at one candidate: the first five, and the single one. -/
theorem stored_candidates_are_first_five_witness :
    (LocationSearch.timerCallbackResume hyderabadResults LocationSearch.init).results.length
      = 5 ∧
    (LocationSearch.timerCallbackResume hyderResults LocationSearch.init).results.length
      = 1 :=
  ⟨(stored_candidates_are_first_five hyderabadResults LocationSearch.init).1.trans rfl,
   (stored_candidates_are_first_five hyderResults LocationSearch.init).1.trans rfl⟩

/-! ## Numbers read from text -/

/-- Rounding to a double never gives `NaN`. -/
@[simp]
theorem toDouble_isNaN (negative : Bool) (magnitude : Rat) :
    isNaN (toDouble negative magnitude) = false := by
  unfold toDouble
  split
  · rfl
  · simp only []
    split <;> rfl

/-- The unsigned reader gives `NaN` exactly on a text that starts with no numeric
literal. -/
theorem parseUnsigned_isNaN (negative : Bool) (body : List Char) :
    isNaN (parseUnsigned negative body)
      = !("Infinity".toList.isPrefixOf body ||
          (match body with
            | [] => false
            | c :: rest =>
              c.isDigit ||
                (c == '.' && (match rest with
                  | [] => false
                  | d :: _ => d.isDigit)))) := by
  unfold parseUnsigned
  generalize "Infinity".toList.isPrefixOf body = p
  cases p with
  | true => simp [isNaN]
  | false =>
    simp only [Bool.false_eq_true, if_false, Bool.false_or]
    cases body with
    | nil => simp [isNaN]
    | cons c rest =>
      by_cases hd : c.isDigit = true
      · simp [List.takeWhile_cons, hd]
      · have hdrop : (c :: rest).dropWhile Char.isDigit = c :: rest := by
          simp [List.dropWhile_cons, hd]
        have htake : (c :: rest).takeWhile Char.isDigit = [] := by
          simp [List.takeWhile_cons, hd]
        simp only [hdrop, htake]
        by_cases hc : c = '.'
        · subst hc
          cases rest with
          | nil => simp [isNaN]
          | cons d r =>
            by_cases hdd : d.isDigit = true
            · simp [List.takeWhile_cons, hdd]
            · simp [List.takeWhile_cons, hdd, isNaN]
        · have hfrac : (match c :: rest with
              | '.' :: rest => rest.takeWhile Char.isDigit
              | _ => []) = [] := by
            split
            · rename_i heq
              simp at heq
              exact absurd heq.1 hc
            · rfl
          simp [hfrac, hd, hc, isNaN]

/-- The reader `parseFloat` gives `NaN` exactly on a text that starts with no number. -/
theorem parseFloat_isNaN (text : String) :
    isNaN (parseFloat text) = !startsWithNumber text := by
  unfold parseFloat startsWithNumber afterSign
  split <;> simp only [parseUnsigned_isNaN]

/-- The reader `parseFloat` rounds to a double: a decimal that is no double is read as the
nearest one, a text beyond the largest double as an infinity, one below the smallest as
zero. -/
theorem parseFloat_rounds :
    parseFloat "17.5" = .finite 17.5 ∧
    parseFloat "20.00000000000000000001" = .finite 20 ∧
    parseFloat "0.1" = .finite (3602879701896397 / 36028797018963968) ∧
    parseFloat "9007199254740993" = .finite 9007199254740992 ∧
    parseFloat "1e400" = .infinity false ∧
    parseFloat "-1e400" = .infinity true ∧
    parseFloat "12e-400" = .finite 0 := by
  refine ⟨?_, ?_, ?_, ?_, ?_, ?_, ?_⟩ <;> decide!

/-! ## MapPage: the boundary and the three searches -/

theorem MapPage.fetchPredictionResume_boundary (o : FetchOutcome) (s : MapPageState) :
    (MapPage.fetchPredictionResume o s).geoJsonData = s.geoJsonData ∧
    (MapPage.fetchPredictionResume o s).maskData = s.maskData ∧
    (MapPage.fetchPredictionResume o s).alerts = s.alerts := by
  unfold MapPage.fetchPredictionResume
  cases MapPage.fetchPredictionTry o <;> simp

theorem MapPage.handleStartAnalysis_boundary (year : String) (s : MapPageState) :
    (MapPage.handleStartAnalysis year s).geoJsonData = s.geoJsonData ∧
    (MapPage.handleStartAnalysis year s).maskData = s.maskData ∧
    (MapPage.handleStartAnalysis year s).mapIsReady = s.mapIsReady := by
  unfold MapPage.handleStartAnalysis
  cases s.locationToAnalyze with
  | none => exact ⟨rfl, rfl, rfl⟩
  | some loc =>
    simp only
    split_ifs <;> exact ⟨rfl, rfl, rfl⟩

/-- Only the load of the boundary changes the boundary documents and the readiness of the
map. -/
theorem MapPage.step_boundary (s : MapPageState) (e : MapEvent) :
    (∃ b m, e = .boundaryLoaded b m) ∨
    ((MapPage.step s e).geoJsonData = s.geoJsonData ∧
      (MapPage.step s e).maskData = s.maskData ∧
      (MapPage.step s e).mapIsReady = s.mapIsReady) := by
  cases e with
  | boundaryLoaded b m => exact Or.inl ⟨b, m, rfl⟩
  | locationSelect location =>
    right
    simp only [MapPage.step]
    split_ifs <;> exact ⟨rfl, rfl, rfl⟩
  | mapClick latlng inBounds onMask =>
    right
    simp only [MapPage.step]
    split_ifs
    · obtain ⟨h1, h2, h3, -⟩ := MapPage.click_frame latlng inBounds onMask s
      exact ⟨h2, h3, h1⟩
    · exact ⟨rfl, rfl, rfl⟩
  | coordSearch latInput lonInput =>
    right
    simp only [MapPage.step]
    split_ifs
    · obtain ⟨h1, h2, h3, -⟩ := MapPage.coordSearch_frame latInput lonInput s
      exact ⟨h2, h3, h1⟩
    · exact ⟨rfl, rfl, rfl⟩
  | searchResult x y =>
    right
    simp only [MapPage.step]
    split_ifs
    · obtain ⟨h1, h2, h3, -⟩ := MapPage.searchResult_frame x y s
      exact ⟨h2, h3, h1⟩
    · exact ⟨rfl, rfl, rfl⟩
  | resultClick result =>
    right
    simp only [MapPage.step]
    split_ifs
    · obtain ⟨h1, -, -, -, -, -, -, -, -, h2, h3⟩ :=
        MapPage.resultClick_frame result LocationSearch.init s
      exact ⟨h2, h3, h1⟩
    · exact ⟨rfl, rfl, rfl⟩
  | yearChange year =>
    right
    simp only [MapPage.step]
    split_ifs <;> exact ⟨rfl, rfl, rfl⟩
  | analyzeClick =>
    right
    simp only [MapPage.step]
    obtain ⟨h1, h2, h3⟩ := MapPage.handleStartAnalysis_boundary s.selectedYear s
    exact ⟨h1, h2, h3⟩
  | modalClose => exact Or.inr ⟨rfl, rfl, rfl⟩
  | closePanel => exact Or.inr ⟨rfl, rfl, rfl⟩
  | settle i o =>
    right
    simp only [MapPage.step]
    split_ifs
    · obtain ⟨h1, h2, -⟩ := MapPage.fetchPredictionResume_boundary o
        { s with inFlight := s.inFlight.eraseIdx i }
      obtain ⟨-, h3, -⟩ := MapPage.fetchPredictionResume_frame o
        { s with inFlight := s.inFlight.eraseIdx i }
      exact ⟨h1, h2, h3⟩
    · exact ⟨rfl, rfl, rfl⟩

/-- Once the boundary document is there, the map is mounted. -/
theorem MapPage.boundary_loaded_mounted (events : List MapEvent) :
    (MapPage.run MapPage.init events).geoJsonData ≠ none →
      (MapPage.run MapPage.init events).mapIsReady = true := by
  apply MapPage.run_induction
    (fun s => s.geoJsonData ≠ none → s.mapIsReady = true)
  · intro s e hs
    rcases MapPage.step_boundary s e with ⟨b, m, rfl⟩ | ⟨h1, -, h3⟩
    · intro _
      rfl
    · rw [h1, h3]
      exact hs
  · intro h
    exact absurd rfl h

/-- The containment test finds a point inside exactly when some feature of the boundary
document covers it. -/
theorem MapPage.isInside_iff (g : GeoJson) (lon lat : Rat) :
    MapPage.isInside g lon lat = true ↔
      ∃ feature ∈ g.features, feature.geometry.covers (lon, lat) = true := by
  simp [MapPage.isInside, checkPoint, turfPoint, List.any_eq_true]

/-- C13: with the boundary document loaded, picking a candidate of the place search moves
the map to the candidate exactly when the candidate is inside the boundary, shows the
outside notice otherwise, and in both cases leaves the analysis workflow as it is: the
modal is not opened, no pending location is set, no request is issued; the search box
takes the label of the candidate as its text and empties its list. -/
theorem candidate_selection_centres_only (s : MapPageState) (hr : MapPage.Reachable s)
    (g : GeoJson) (h : s.geoJsonData = some g) (result : Candidate)
    (box : LocationSearchState) :
    (LocationSearch.onResultClick result box s).2.flyTos
      = (if MapPage.isInside g result.x result.y then
          s.flyTos ++ [FlyTo.mk result.y result.x 12] else s.flyTos) ∧
    (LocationSearch.onResultClick result box s).2.alerts
      = (if MapPage.isInside g result.x result.y then s.alerts
          else s.alerts ++ [MapPage.outsideNotice]) ∧
    (LocationSearch.onResultClick result box s).2.isModalOpen = s.isModalOpen ∧
    (LocationSearch.onResultClick result box s).2.locationToAnalyze = s.locationToAnalyze ∧
    (LocationSearch.onResultClick result box s).2.fetches = s.fetches ∧
    (LocationSearch.onResultClick result box s).2.inFlight = s.inFlight ∧
    (LocationSearch.onResultClick result box s).2.uiState = s.uiState ∧
    (LocationSearch.onResultClick result box s).2.apiResult = s.apiResult ∧
    (LocationSearch.onResultClick result box s).2.clickedPoint = s.clickedPoint ∧
    (LocationSearch.onResultClick result box s).1.query = result.label ∧
    (LocationSearch.onResultClick result box s).1.results = [] := by
  obtain ⟨events, rfl⟩ := hr
  have hm : (MapPage.run MapPage.init events).mapIsReady = true :=
    MapPage.boundary_loaded_mounted events (by rw [h]; simp)
  obtain ⟨-, f2, f3, f4, f5, f6, -, f8, f9, -, -⟩ :=
    MapPage.resultClick_frame result box (MapPage.run MapPage.init events)
  refine ⟨?_, ?_, f5, f6, f8, f9, f2, f4, f3, ?_, ?_⟩
  all_goals
    unfold LocationSearch.onResultClick
    simp only [h, MapPage.mapRef, hm, if_true]
    split_ifs <;> simp [MapPage.flyTo, MapPage.alert]

/-- C13 at the sample boundary: the candidate "Hyderabad, Telangana" is inside and the map
moves to it; the candidate "Hyder, Alaska" is outside and the notice is shown; the modal
stays closed. -/
theorem candidate_selection_centres_only_witness :
    (LocationSearch.onResultClick
      { label := "Hyderabad, Telangana", x := 78.5, y := 17.5 } LocationSearch.init
      (MapPage.run MapPage.init boundaryReady)).2.flyTos = [FlyTo.mk 17.5 78.5 12] ∧
    (LocationSearch.onResultClick
      { label := "Hyder, Alaska", x := -130, y := 56 } LocationSearch.init
      (MapPage.run MapPage.init boundaryReady)).2.flyTos = [] ∧
    (LocationSearch.onResultClick
      { label := "Hyderabad, Telangana", x := 78.5, y := 17.5 } LocationSearch.init
      (MapPage.run MapPage.init boundaryReady)).2.isModalOpen = false :=
  ⟨(candidate_selection_centres_only (MapPage.run MapPage.init boundaryReady)
      ⟨boundaryReady, rfl⟩ sampleBoundary rfl
      { label := "Hyderabad, Telangana", x := 78.5, y := 17.5 } LocationSearch.init).1.trans
      (by with_unfolding_all decide),
   (candidate_selection_centres_only (MapPage.run MapPage.init boundaryReady)
      ⟨boundaryReady, rfl⟩ sampleBoundary rfl
      { label := "Hyder, Alaska", x := -130, y := 56 } LocationSearch.init).1.trans
      (by with_unfolding_all decide),
   (candidate_selection_centres_only (MapPage.run MapPage.init boundaryReady)
      ⟨boundaryReady, rfl⟩ sampleBoundary rfl
      { label := "Hyderabad, Telangana", x := 78.5, y := 17.5 }
      LocationSearch.init).2.2.1⟩

/-- C14, as stated, fails: the latitude text "17.5abc" is not a number, yet the submission
shows no notice, is tested against the boundary as the point (17.5, 79) and opens the
year selection for it. -/
theorem text_with_numeric_start_accepted :
    isNumberText "17.5abc" = false ∧
    parseFloat "17.5abc" = JsNumber.finite 17.5 ∧
    (CoordSearch.handleSearch "17.5abc" "79"
      (MapPage.run MapPage.init boundaryReady)).alerts = [] ∧
    (CoordSearch.handleSearch "17.5abc" "79"
      (MapPage.run MapPage.init boundaryReady)).locationToAnalyze = some pointA ∧
    (CoordSearch.handleSearch "17.5abc" "79"
      (MapPage.run MapPage.init boundaryReady)).isModalOpen = true ∧
    (MapPage.run MapPage.init boundaryReady).isModalOpen = false := by
  refine ⟨?_, ?_, ?_, ?_, ?_, ?_⟩ <;> with_unfolding_all decide

/-- C14, amended: for every coordinate submission in which the latitude text or the
longitude text starts with no number (after white space and a sign: neither `Infinity`,
nor a digit, nor a point and a digit), `parseFloat` gives `NaN` for it and the submission
shows the notice for invalid numbers and does nothing else, whatever the boundary: no
pending location, the modal as it was, the workflow state, the map and the requests
unchanged. -/
theorem invalid_coordinates_rejected (latInput lonInput : String) (s : MapPageState)
    (h : startsWithNumber latInput = false ∨ startsWithNumber lonInput = false) :
    (isNaN (parseFloat latInput) = true ∨ isNaN (parseFloat lonInput) = true) ∧
    CoordSearch.handleSearch latInput lonInput s
      = MapPage.alert MapPage.invalidNumberNotice s ∧
    (CoordSearch.handleSearch latInput lonInput s).alerts
      = s.alerts ++ ["Please enter valid latitude and longitude numbers."] ∧
    (CoordSearch.handleSearch latInput lonInput s).locationToAnalyze = s.locationToAnalyze ∧
    (CoordSearch.handleSearch latInput lonInput s).isModalOpen = s.isModalOpen ∧
    (CoordSearch.handleSearch latInput lonInput s).uiState = s.uiState ∧
    (CoordSearch.handleSearch latInput lonInput s).apiResult = s.apiResult ∧
    (CoordSearch.handleSearch latInput lonInput s).clickedPoint = s.clickedPoint ∧
    (CoordSearch.handleSearch latInput lonInput s).flyTos = s.flyTos ∧
    (CoordSearch.handleSearch latInput lonInput s).fetches = s.fetches := by
  have hn : (isNaN (parseFloat latInput) || isNaN (parseFloat lonInput)) = true := by
    rw [parseFloat_isNaN, parseFloat_isNaN]
    rcases h with h | h <;> simp [h]
  have hor : isNaN (parseFloat latInput) = true ∨ isNaN (parseFloat lonInput) = true := by
    simpa [Bool.or_eq_true] using hn
  rw [CoordSearch.handleSearch_nan latInput lonInput s hn]
  exact ⟨hor, rfl, rfl, rfl, rfl, rfl, rfl, rfl, rfl, rfl⟩

/-- Scenario E: the latitude text "abc" with the boundary loaded; the notice is shown and
no location is pending. -/
theorem invalid_coordinates_rejected_witness :
    startsWithNumber "abc" = false ∧
    (CoordSearch.handleSearch "abc" "79" (MapPage.run MapPage.init boundaryReady)).alerts
      = ["Please enter valid latitude and longitude numbers."] ∧
    (CoordSearch.handleSearch "abc" "79"
      (MapPage.run MapPage.init boundaryReady)).locationToAnalyze = none :=
  ⟨by decide,
   (invalid_coordinates_rejected "abc" "79" (MapPage.run MapPage.init boundaryReady)
      (Or.inl (by decide))).2.2.1,
   (invalid_coordinates_rejected "abc" "79" (MapPage.run MapPage.init boundaryReady)
      (Or.inl (by decide))).2.2.2.1⟩

/-- C15: for every coordinate submission whose texts parse to `(lat, lon)`, with the
boundary document loaded, the page passes exactly that location up, which stores it as the
pending location and opens the year selection, when the point is inside the boundary; when
it is outside, the outside notice is shown and nothing else changes: no pending location,
no request. -/
theorem coordinate_submission_gated (s : MapPageState) (hr : MapPage.Reachable s)
    (g : GeoJson) (h : s.geoJsonData = some g) (latInput lonInput : String) (lat lon : Rat)
    (hla : parseFloat latInput = .finite lat) (hlo : parseFloat lonInput = .finite lon) :
    (MapPage.isInside g lon lat = true →
      CoordSearch.handleSearch latInput lonInput s
        = MapPage.handleLocationSelect { lat := lat, lon := lon } s ∧
      (CoordSearch.handleSearch latInput lonInput s).locationToAnalyze
        = some { lat := lat, lon := lon } ∧
      (CoordSearch.handleSearch latInput lonInput s).isModalOpen = true ∧
      (CoordSearch.handleSearch latInput lonInput s).alerts = s.alerts ∧
      (CoordSearch.handleSearch latInput lonInput s).fetches = s.fetches) ∧
    (MapPage.isInside g lon lat = false →
      CoordSearch.handleSearch latInput lonInput s
        = MapPage.alert MapPage.outsideNotice s ∧
      (CoordSearch.handleSearch latInput lonInput s).alerts
        = s.alerts ++ ["This location is outside the analysis area of Telangana and Andhra Pradesh."] ∧
      (CoordSearch.handleSearch latInput lonInput s).locationToAnalyze
        = s.locationToAnalyze ∧
      (CoordSearch.handleSearch latInput lonInput s).isModalOpen = s.isModalOpen ∧
      (CoordSearch.handleSearch latInput lonInput s).uiState = s.uiState ∧
      (CoordSearch.handleSearch latInput lonInput s).fetches = s.fetches ∧
      (CoordSearch.handleSearch latInput lonInput s).inFlight = s.inFlight) := by
  obtain ⟨events, rfl⟩ := hr
  have hm : (MapPage.run MapPage.init events).mapIsReady = true :=
    MapPage.boundary_loaded_mounted events (by rw [h]; simp)
  rw [CoordSearch.handleSearch_finite latInput lonInput _ lat lon g hla hlo h]
  constructor
  · intro hi
    have hmr : MapPage.mapRef (MapPage.run MapPage.init events) = true := hm
    rw [if_pos hi, if_pos hmr]
    exact ⟨rfl, rfl, rfl, rfl, rfl⟩
  · intro hi
    have hni : ¬ MapPage.isInside g lon lat = true := by simp [hi]
    rw [if_neg hni]
    exact ⟨rfl, rfl, rfl, rfl, rfl, rfl, rfl⟩

/-- Scenario B and its counterpart at the sample boundary: the texts "10.0" and "70.0"
give a point outside, the notice is shown and no location is pending; the texts "17.5" and
"79" give a point inside, which becomes the pending location; the latitude text
"20.00000000000000000001" is read as the double 20, on the edge of the sample boundary, so
the point (20, 79) becomes the pending location. -/
theorem coordinate_submission_gated_witness :
    (CoordSearch.handleSearch "10.0" "70.0"
      (MapPage.run MapPage.init boundaryReady)).alerts
      = ["This location is outside the analysis area of Telangana and Andhra Pradesh."] ∧
    (CoordSearch.handleSearch "10.0" "70.0"
      (MapPage.run MapPage.init boundaryReady)).locationToAnalyze = none ∧
    (CoordSearch.handleSearch "10.0" "70.0"
      (MapPage.run MapPage.init boundaryReady)).fetches = [] ∧
    (CoordSearch.handleSearch "17.5" "79"
      (MapPage.run MapPage.init boundaryReady)).locationToAnalyze = some pointA ∧
    (CoordSearch.handleSearch "20.00000000000000000001" "79"
      (MapPage.run MapPage.init boundaryReady)).locationToAnalyze
      = some { lat := 20, lon := 79 } ∧
    (CoordSearch.handleSearch "20.00000000000000000001" "79"
      (MapPage.run MapPage.init boundaryReady)).alerts = [] :=
  ⟨((coordinate_submission_gated (MapPage.run MapPage.init boundaryReady)
      ⟨boundaryReady, rfl⟩ sampleBoundary rfl "10.0" "70.0" 10 70
      (by with_unfolding_all decide) (by with_unfolding_all decide)).2
      (by with_unfolding_all decide)).2.1,
   ((coordinate_submission_gated (MapPage.run MapPage.init boundaryReady)
      ⟨boundaryReady, rfl⟩ sampleBoundary rfl "10.0" "70.0" 10 70
      (by with_unfolding_all decide) (by with_unfolding_all decide)).2
      (by with_unfolding_all decide)).2.2.1,
   ((coordinate_submission_gated (MapPage.run MapPage.init boundaryReady)
      ⟨boundaryReady, rfl⟩ sampleBoundary rfl "10.0" "70.0" 10 70
      (by with_unfolding_all decide) (by with_unfolding_all decide)).2
      (by with_unfolding_all decide)).2.2.2.2.2.1,
   ((coordinate_submission_gated (MapPage.run MapPage.init boundaryReady)
      ⟨boundaryReady, rfl⟩ sampleBoundary rfl "17.5" "79" 17.5 79
      (by with_unfolding_all decide) (by with_unfolding_all decide)).1
      (by with_unfolding_all decide)).2.1,
   ((coordinate_submission_gated (MapPage.run MapPage.init boundaryReady)
      ⟨boundaryReady, rfl⟩ sampleBoundary rfl "20.00000000000000000001" "79" 20 79
      (by with_unfolding_all decide) (by with_unfolding_all decide)).1
      (by with_unfolding_all decide)).2.1,
   ((coordinate_submission_gated (MapPage.run MapPage.init boundaryReady)
      ⟨boundaryReady, rfl⟩ sampleBoundary rfl "20.00000000000000000001" "79" 20 79
      (by with_unfolding_all decide) (by with_unfolding_all decide)).1
      (by with_unfolding_all decide)).2.2.2.1⟩

/-- C16: while the boundary document is not loaded, each of the three containment queries
(picking a place candidate, submitting coordinates that parse, a result of the map search
control) shows the notice that the data is still loading and does nothing else to the
page: the point is not tested, neither outside notice is shown, the map does not move and
the workflow is unchanged. -/
theorem not_ready_notice_only (s : MapPageState) (h : s.geoJsonData = none) :
    (∀ (result : Candidate) (box : LocationSearchState),
      (LocationSearch.onResultClick result box s).2
        = MapPage.alert MapPage.notReadyNotice s) ∧
    (∀ (latInput lonInput : String),
      startsWithNumber latInput = true → startsWithNumber lonInput = true →
      CoordSearch.handleSearch latInput lonInput s
        = MapPage.alert MapPage.notReadyNotice s) ∧
    (∀ (x y : Rat),
      MapSearchComponent.onSearchResult x y s = MapPage.alert MapPage.notReadyNotice s) ∧
    MapPage.notReadyNotice ≠ MapPage.outsideNotice ∧
    MapPage.notReadyNotice ≠ MapPage.outsideNoticeShort ∧
    (MapPage.alert MapPage.notReadyNotice s).alerts
      = s.alerts ++ ["Boundary data is still loading. Please try again in a moment."] ∧
    (MapPage.alert MapPage.notReadyNotice s).flyTos = s.flyTos ∧
    (MapPage.alert MapPage.notReadyNotice s).isModalOpen = s.isModalOpen ∧
    (MapPage.alert MapPage.notReadyNotice s).locationToAnalyze = s.locationToAnalyze ∧
    (MapPage.alert MapPage.notReadyNotice s).uiState = s.uiState ∧
    (MapPage.alert MapPage.notReadyNotice s).apiResult = s.apiResult ∧
    (MapPage.alert MapPage.notReadyNotice s).clickedPoint = s.clickedPoint ∧
    (MapPage.alert MapPage.notReadyNotice s).fetches = s.fetches := by
  refine ⟨?_, ?_, ?_, by decide, by decide, rfl, rfl, rfl, rfl, rfl, rfl, rfl, rfl⟩
  · intro result box
    simp [LocationSearch.onResultClick, h]
  · intro latInput lonInput hla hlo
    apply CoordSearch.handleSearch_not_ready _ _ s _ h
    rw [parseFloat_isNaN, parseFloat_isNaN, hla, hlo]
    rfl
  · intro x y
    simp [MapSearchComponent.onSearchResult, h]

/-- C16 at the freshly mounted page, whose boundary document is missing: the coordinates
(17.5, 79) get the loading notice and no location is pending. -/
theorem not_ready_notice_only_witness :
    MapPage.init.geoJsonData = none ∧
    (CoordSearch.handleSearch "17.5" "79" MapPage.init).alerts
      = ["Boundary data is still loading. Please try again in a moment."] ∧
    (CoordSearch.handleSearch "17.5" "79" MapPage.init).locationToAnalyze = none :=
  ⟨rfl,
   ((not_ready_notice_only MapPage.init rfl).2.1 "17.5" "79" (by decide)
      (by decide)).symm ▸ rfl,
   ((not_ready_notice_only MapPage.init rfl).2.1 "17.5" "79" (by decide)
      (by decide)).symm ▸ rfl⟩

/-- C17, as stated, fails: with the sample boundary loaded and a mask that has no shape, a
click on the map at (10, 70), which no feature of the boundary covers, becomes the pending
location with the year selection open, and confirming sends a request for it. -/
theorem map_click_outside_boundary_pending :
    MapPage.isInside sampleBoundary 70 10 = false ∧
    (MapPage.run MapPage.init
      (boundaryReady ++ [.mapClick pointOutside true false])).locationToAnalyze
        = some pointOutside ∧
    (MapPage.run MapPage.init
      (boundaryReady ++ [.mapClick pointOutside true false])).isModalOpen = true ∧
    (MapPage.run MapPage.init
      (boundaryReady ++ [.mapClick pointOutside true false, .analyzeClick])).fetches.map
        FetchCall.body = [{ lat := 10, lon := 70, year := "2020-2021" }] := by
  refine ⟨?_, ?_, ?_, ?_⟩ <;> with_unfolding_all decide

/-- C17, amended: a location that the coordinate search makes pending is inside the
boundary polygon set; the map search control and the place search never make a location
pending; a click on the map makes its point pending whenever the click is inside the
current bounds of the map and not on a shape of the mask layer, with no test against the
boundary. -/
theorem pending_location_by_path (s : MapPageState) :
    (∀ (latInput lonInput : String) (g : GeoJson), s.geoJsonData = some g →
      (CoordSearch.handleSearch latInput lonInput s).locationToAnalyze
          = s.locationToAnalyze ∨
        ∃ loc : Location,
          CoordSearch.handleSearch latInput lonInput s
            = MapPage.handleLocationSelect loc s ∧
          parseFloat latInput = .finite loc.lat ∧ parseFloat lonInput = .finite loc.lon ∧
          MapPage.isInside g loc.lon loc.lat = true) ∧
    (∀ (x y : Rat),
      (MapSearchComponent.onSearchResult x y s).locationToAnalyze = s.locationToAnalyze ∧
      (MapSearchComponent.onSearchResult x y s).isModalOpen = s.isModalOpen) ∧
    (∀ (result : Candidate) (box : LocationSearchState),
      (LocationSearch.onResultClick result box s).2.locationToAnalyze
        = s.locationToAnalyze ∧
      (LocationSearch.onResultClick result box s).2.isModalOpen = s.isModalOpen) ∧
    (∀ (latlng : Location) (inBounds onMask : Bool),
      BoundaryController.click latlng inBounds onMask s
        = if (s.maskData.isSome && onMask) || !inBounds then s
          else MapPage.handleLocationSelect latlng s) := by
  refine ⟨?_, ?_, ?_, ?_⟩
  · intro latInput lonInput g hg
    cases hn : (isNaN (parseFloat latInput) || isNaN (parseFloat lonInput)) with
    | true =>
      left
      rw [CoordSearch.handleSearch_nan _ _ s hn]
      rfl
    | false =>
      cases hla : parseFloat latInput with
      | nan => simp [hla, isNaN] at hn
      | infinity n =>
        left
        rw [CoordSearch.handleSearch_infinite _ _ s g hn (Or.inl ⟨n, hla⟩) hg]
        rfl
      | finite la =>
        cases hlo : parseFloat lonInput with
        | nan => simp [hlo, isNaN] at hn
        | infinity n =>
          left
          rw [CoordSearch.handleSearch_infinite _ _ s g hn (Or.inr ⟨n, hlo⟩) hg]
          rfl
        | finite lo =>
          rw [CoordSearch.handleSearch_finite _ _ s la lo g hla hlo hg]
          by_cases hi : MapPage.isInside g lo la = true
          · by_cases hm : MapPage.mapRef s = true
            · right
              rw [if_pos hi, if_pos hm]
              exact ⟨{ lat := la, lon := lo }, rfl, rfl, rfl, hi⟩
            · left
              rw [if_pos hi, if_neg hm]
          · left
            rw [if_neg hi]
            rfl
  · intro x y
    obtain ⟨-, -, -, -, h5, h6, -⟩ := MapPage.searchResult_frame x y s
    exact ⟨h6, h5⟩
  · intro result box
    obtain ⟨-, -, -, -, h5, h6, -⟩ := MapPage.resultClick_frame result box s
    exact ⟨h6, h5⟩
  · intro latlng inBounds onMask
    unfold BoundaryController.click MapClickHandler.click
    cases hmask : (s.maskData.isSome && onMask) <;> cases inBounds <;> simp

/-- C18, as stated, fails: with the sample boundary loaded and the workflow idle, a result
of the map search control at (17.5, 79), inside the boundary, moves the map and leaves the
workflow idle: the modal stays closed and no location is pending. -/
theorem search_control_keeps_idle :
    MapPage.isInside sampleBoundary 79 17.5 = true ∧
    (MapPage.run MapPage.init (boundaryReady ++ [.searchResult 79 17.5])).isModalOpen
      = false ∧
    (MapPage.run MapPage.init (boundaryReady ++ [.searchResult 79 17.5])).locationToAnalyze
      = none ∧
    (MapPage.run MapPage.init (boundaryReady ++ [.searchResult 79 17.5])).uiState
      = UiState.initial ∧
    (MapPage.run MapPage.init (boundaryReady ++ [.searchResult 79 17.5])).flyTos
      = [FlyTo.mk 17.5 79 12] := by
  refine ⟨?_, ?_, ?_, ?_, ?_⟩ <;> with_unfolding_all decide

/-- C18, amended: a location delivered by the map search control that lies inside the
boundary only moves the map to it, at zoom 12; the workflow stays where it was: the modal
is not opened, no pending location is set, no request is issued and no notice is shown. -/
theorem search_control_centres_only (s : MapPageState) (g : GeoJson) (x y : Rat)
    (h : s.geoJsonData = some g) (hi : MapPage.isInside g x y = true) :
    MapSearchComponent.onSearchResult x y s = MapPage.flyTo y x 12 s ∧
    (MapSearchComponent.onSearchResult x y s).flyTos = s.flyTos ++ [FlyTo.mk y x 12] ∧
    (MapSearchComponent.onSearchResult x y s).isModalOpen = s.isModalOpen ∧
    (MapSearchComponent.onSearchResult x y s).locationToAnalyze = s.locationToAnalyze ∧
    (MapSearchComponent.onSearchResult x y s).uiState = s.uiState ∧
    (MapSearchComponent.onSearchResult x y s).fetches = s.fetches ∧
    (MapSearchComponent.onSearchResult x y s).alerts = s.alerts := by
  have heq : MapSearchComponent.onSearchResult x y s = MapPage.flyTo y x 12 s := by
    simp [MapSearchComponent.onSearchResult, h, hi]
  rw [heq]
  exact ⟨rfl, rfl, rfl, rfl, rfl, rfl, rfl⟩

/-- The amended C18 at the sample boundary and the point (17.5, 79). -/
theorem search_control_centres_only_witness :
    (MapPage.run MapPage.init boundaryReady).geoJsonData.isSome = true ∧
    (MapSearchComponent.onSearchResult 79 17.5
      (MapPage.run MapPage.init boundaryReady)).flyTos = [FlyTo.mk 17.5 79 12] ∧
    (MapSearchComponent.onSearchResult 79 17.5
      (MapPage.run MapPage.init boundaryReady)).isModalOpen = false :=
  ⟨rfl,
   (search_control_centres_only (MapPage.run MapPage.init boundaryReady) sampleBoundary
      79 17.5 rfl (by with_unfolding_all decide)).2.1,
   (search_control_centres_only (MapPage.run MapPage.init boundaryReady) sampleBoundary
      79 17.5 rfl (by with_unfolding_all decide)).2.2.1⟩

/-! ## MapPage: leaving the year selection and the results panel -/

/-- C19, as stated, fails: with a result shown, a new location is selected and the year
selection is cancelled; the workflow is not idle but shows the earlier result again, and
the cancelled location is still stored. -/
theorem cancel_returns_to_previous_state :
    (MapPage.run MapPage.init (resultShown ++ [.locationSelect pointB])).isModalOpen
      = true ∧
    (MapPage.run MapPage.init
      (resultShown ++ [.locationSelect pointB, .modalClose])).isModalOpen = false ∧
    (MapPage.run MapPage.init
      (resultShown ++ [.locationSelect pointB, .modalClose])).uiState = UiState.result ∧
    (MapPage.run MapPage.init
      (resultShown ++ [.locationSelect pointB, .modalClose])).apiResult = cropBody ∧
    (MapPage.run MapPage.init
      (resultShown ++ [.locationSelect pointB, .modalClose])).clickedPoint
        = some (17.5, 79) ∧
    (MapPage.run MapPage.init
      (resultShown ++ [.locationSelect pointB, .modalClose])).locationToAnalyze
        = some pointB :=
  ⟨rfl, rfl, rfl, rfl, rfl, rfl⟩

/-- C19, amended: the Cancel action closes the year selection and sends no request; it
leaves the shown workflow state, the stored result, the selected point and the map as they
were, so the workflow is idle afterwards exactly when it was idle before. -/
theorem cancel_closes_year_selection (s : MapPageState) (h : s.isModalOpen = true) :
    (MapPage.step s .modalClose).isModalOpen = false ∧
    (MapPage.step s .modalClose).fetches = s.fetches ∧
    (MapPage.step s .modalClose).inFlight = s.inFlight ∧
    (MapPage.step s .modalClose).uiState = s.uiState ∧
    (MapPage.step s .modalClose).apiResult = s.apiResult ∧
    (MapPage.step s .modalClose).clickedPoint = s.clickedPoint ∧
    (MapPage.step s .modalClose).flyTos = s.flyTos ∧
    (MapPage.step s .modalClose).alerts = s.alerts ∧
    ((MapPage.step s .modalClose).uiState = UiState.initial ↔ s.uiState = UiState.initial) ∧
    MapPage.step s .modalClose ≠ s := by
  refine ⟨rfl, rfl, rfl, rfl, rfl, rfl, rfl, rfl, Iff.rfl, ?_⟩
  intro hstep
  have hopen : (MapPage.step s .modalClose).isModalOpen = s.isModalOpen := by rw [hstep]
  rw [h] at hopen
  cases hopen

/-- The amended C19 at the idle page with `pointA` pending, and at the page that shows a
result with `pointB` pending: after Cancel the modal is closed, no request has been sent
for the cancelled location, and the workflow is idle in the first case and still shows the
result in the second. -/
theorem cancel_closes_year_selection_witness :
    (MapPage.run MapPage.init pendingA).isModalOpen = true ∧
    (MapPage.step (MapPage.run MapPage.init pendingA) .modalClose).isModalOpen = false ∧
    (MapPage.step (MapPage.run MapPage.init pendingA) .modalClose).uiState
      = UiState.initial ∧
    (MapPage.step (MapPage.run MapPage.init pendingA) .modalClose).fetches = [] ∧
    (MapPage.step (MapPage.run MapPage.init (resultShown ++ [MapEvent.locationSelect pointB]))
      .modalClose).uiState = UiState.result :=
  ⟨rfl,
   (cancel_closes_year_selection (MapPage.run MapPage.init pendingA) rfl).1,
   (cancel_closes_year_selection (MapPage.run MapPage.init pendingA) rfl).2.2.2.1,
   (cancel_closes_year_selection (MapPage.run MapPage.init pendingA) rfl).2.1,
   (cancel_closes_year_selection
      (MapPage.run MapPage.init (resultShown ++ [MapEvent.locationSelect pointB])) rfl).2.2.2.1⟩

/-- C20: from the result state and from the error state, dismissing the results panel
moves the workflow to the initial state with the stored result and the selected point both
cleared; nothing else changes and no request is sent. -/
theorem dismiss_clears_result (s : MapPageState)
    (h : s.uiState = UiState.result ∨ s.uiState = UiState.error) :
    (MapPage.step s .closePanel).uiState = UiState.initial ∧
    (MapPage.step s .closePanel).apiResult = JsVal.null ∧
    (MapPage.step s .closePanel).clickedPoint = none ∧
    (MapPage.step s .closePanel).isModalOpen = s.isModalOpen ∧
    (MapPage.step s .closePanel).locationToAnalyze = s.locationToAnalyze ∧
    (MapPage.step s .closePanel).fetches = s.fetches ∧
    (MapPage.step s .closePanel).inFlight = s.inFlight := by
  rcases h with _ | _ <;> exact ⟨rfl, rfl, rfl, rfl, rfl, rfl, rfl⟩

/-- C20 at the page showing the result for `pointA`, and at the page showing an error. -/
theorem dismiss_clears_result_witness :
    (MapPage.run MapPage.init resultShown).uiState = UiState.result ∧
    (MapPage.run MapPage.init resultShown).clickedPoint = some (17.5, 79) ∧
    (MapPage.step (MapPage.run MapPage.init resultShown) .closePanel).uiState
      = UiState.initial ∧
    (MapPage.step (MapPage.run MapPage.init resultShown) .closePanel).clickedPoint
      = none ∧
    (MapPage.run MapPage.init errorShown).uiState = UiState.error ∧
    (MapPage.step (MapPage.run MapPage.init errorShown) .closePanel).uiState
      = UiState.initial :=
  ⟨rfl, rfl,
   (dismiss_clears_result (MapPage.run MapPage.init resultShown) (Or.inl rfl)).1,
   (dismiss_clears_result (MapPage.run MapPage.init resultShown) (Or.inl rfl)).2.2.1,
   rfl,
   (dismiss_clears_result (MapPage.run MapPage.init errorShown) (Or.inr rfl)).1⟩

/-! ## MapPage: what the events do to the workflow -/

theorem MapPage.sameWorkflow_refl (s : MapPageState) : MapPage.SameWorkflow s s :=
  ⟨rfl, rfl, rfl, rfl, rfl⟩

theorem MapPage.fetchPrediction_call (lat lon : Rat) (year : String) (s : MapPageState) :
    (MapPage.triggerAnalysis lat lon year s).fetches
      = s.fetches ++
        [{ url := API_ENDPOINT, method := "POST", contentType := "application/json",
           body := { lat := lat, lon := lon, year := year } }] ∧
    (MapPage.triggerAnalysis lat lon year s).uiState = UiState.loading ∧
    (MapPage.triggerAnalysis lat lon year s).apiResult = JsVal.null ∧
    (MapPage.triggerAnalysis lat lon year s).clickedPoint = some (lat, lon) ∧
    (MapPage.triggerAnalysis lat lon year s).selectedYear = s.selectedYear ∧
    (MapPage.triggerAnalysis lat lon year s).flyTos = s.flyTos ++ [FlyTo.mk lat lon 12] :=
  ⟨rfl, rfl, rfl, rfl, rfl, rfl⟩

/-- What pressing Analyze does: with a location stored and the map
mounted the analysis is triggered for it with the selected year; otherwise only the modal
is closed and the stored location dropped. -/
theorem MapPage.handleAnalyzeClick_cases (s : MapPageState) :
    (∃ loc, s.locationToAnalyze = some loc ∧ MapPage.mapRef s = true ∧
      MapPage.handleAnalyzeClick s
        = MapPage.onClose { (MapPage.triggerAnalysis loc.lat loc.lon s.selectedYear s) with
            locationToAnalyze := none }) ∨
    ((s.locationToAnalyze = none ∨ MapPage.mapRef s = false) ∧
      MapPage.handleAnalyzeClick s
        = MapPage.onClose { s with locationToAnalyze := none }) := by
  unfold MapPage.handleAnalyzeClick MapPage.handleStartAnalysis
  cases hl : s.locationToAnalyze with
  | none => exact Or.inr ⟨Or.inl rfl, rfl⟩
  | some loc =>
    cases hm : MapPage.mapRef s with
    | true => exact Or.inl ⟨loc, rfl, rfl, by simp⟩
    | false => exact Or.inr ⟨Or.inr rfl, by simp⟩

/-- The five things an event can do to the workflow: leave it as it is, change the selected
year to an entry of the menu, dismiss the panel, trigger an analysis, or apply the outcome
of a request. -/
theorem MapPage.step_cases (s : MapPageState) (e : MapEvent) :
    MapPage.SameWorkflow s (MapPage.step s e) ∨
    (∃ y, y ∈ yearOptions ∧ MapPage.step s e = { s with selectedYear := y }) ∨
    MapPage.step s e = MapPage.handleClosePanel s ∨
    (∃ loc, e = MapEvent.analyzeClick ∧ s.locationToAnalyze = some loc ∧
      MapPage.step s e
        = MapPage.onClose { (MapPage.triggerAnalysis loc.lat loc.lon s.selectedYear s) with
            locationToAnalyze := none }) ∨
    (∃ i o, MapPage.step s e
      = MapPage.fetchPredictionResume o { s with inFlight := s.inFlight.eraseIdx i }) := by
  cases e with
  | boundaryLoaded b m => exact Or.inl ⟨rfl, rfl, rfl, rfl, rfl⟩
  | locationSelect location =>
    left
    simp only [MapPage.step]
    split_ifs <;> exact ⟨rfl, rfl, rfl, rfl, rfl⟩
  | mapClick latlng inBounds onMask =>
    left
    simp only [MapPage.step]
    split_ifs
    · rcases MapPage.click_shape latlng inBounds onMask s with h | h <;> rw [h] <;>
        exact ⟨rfl, rfl, rfl, rfl, rfl⟩
    · exact ⟨rfl, rfl, rfl, rfl, rfl⟩
  | coordSearch latInput lonInput =>
    left
    simp only [MapPage.step]
    split_ifs
    · rcases MapPage.coordSearch_shape latInput lonInput s with ⟨m, h⟩ | ⟨loc, h⟩ | h <;>
        rw [h] <;> exact ⟨rfl, rfl, rfl, rfl, rfl⟩
    · exact ⟨rfl, rfl, rfl, rfl, rfl⟩
  | searchResult x y =>
    left
    simp only [MapPage.step]
    split_ifs
    · rcases MapPage.searchResult_shape x y s with ⟨m, h⟩ | h <;> rw [h] <;>
        exact ⟨rfl, rfl, rfl, rfl, rfl⟩
    · exact ⟨rfl, rfl, rfl, rfl, rfl⟩
  | resultClick result =>
    left
    simp only [MapPage.step]
    split_ifs
    · rcases MapPage.resultClick_shape result LocationSearch.init s with ⟨m, h⟩ | h | h <;>
        rw [h] <;> exact ⟨rfl, rfl, rfl, rfl, rfl⟩
    · exact ⟨rfl, rfl, rfl, rfl, rfl⟩
  | yearChange year =>
    simp only [MapPage.step]
    split_ifs with h
    · exact Or.inr (Or.inl ⟨year, h, rfl⟩)
    · exact Or.inl ⟨rfl, rfl, rfl, rfl, rfl⟩
  | analyzeClick =>
    simp only [MapPage.step]
    rcases MapPage.handleAnalyzeClick_cases s with ⟨loc, hl, -, heq⟩ | ⟨-, heq⟩
    · exact Or.inr (Or.inr (Or.inr (Or.inl ⟨loc, trivial, hl, heq⟩)))
    · rw [heq]
      exact Or.inl ⟨rfl, rfl, rfl, rfl, rfl⟩
  | modalClose => exact Or.inl ⟨rfl, rfl, rfl, rfl, rfl⟩
  | closePanel => exact Or.inr (Or.inr (Or.inl rfl))
  | settle i o =>
    simp only [MapPage.step]
    split_ifs
    · exact Or.inr (Or.inr (Or.inr (Or.inr ⟨i, o, rfl⟩)))
    · exact Or.inl ⟨rfl, rfl, rfl, rfl, rfl⟩

/-- C21: the year carried by every issued prediction request is one of the six seasons of
the menu: the fixed set is that of the claim, the initial selection is in it, the selection
stays in it, and every request in the log of every reachable state carries a year of it. -/
theorem request_year_in_menu :
    (∀ y : String, y ∈ yearOptions ↔
      y ∈ ["2018-2019", "2019-2020", "2020-2021", "2021-2022", "2022-2023", "2023-2024"]) ∧
    MapPage.init.selectedYear ∈ yearOptions ∧
    (∀ events : List MapEvent,
      (MapPage.run MapPage.init events).selectedYear ∈ yearOptions ∧
      ∀ call ∈ (MapPage.run MapPage.init events).fetches, call.body.year ∈ yearOptions) := by
  refine ⟨?_, by decide, ?_⟩
  · intro y
    simp only [yearOptions, List.mem_cons, List.mem_singleton, List.not_mem_nil, or_false]
    tauto
  · intro events
    apply MapPage.run_induction
      (fun s => s.selectedYear ∈ yearOptions ∧ ∀ call ∈ s.fetches, call.body.year ∈ yearOptions)
    · intro s e hs
      obtain ⟨hy, hf⟩ := hs
      rcases MapPage.step_cases s e with h | ⟨y, hyo, h⟩ | h | ⟨loc, -, -, h⟩ | ⟨i, o, h⟩
      · obtain ⟨-, -, -, h4, h5⟩ := h
        rw [h4, h5]
        exact ⟨hy, hf⟩
      · rw [h]
        exact ⟨hyo, hf⟩
      · rw [h]
        exact ⟨hy, hf⟩
      · rw [h]
        refine ⟨hy, ?_⟩
        intro call hc
        have hc2 : call ∈ s.fetches ++
            [{ url := API_ENDPOINT, method := "POST", contentType := "application/json",
               body := { lat := loc.lat, lon := loc.lon, year := s.selectedYear } }] := hc
        rcases List.mem_append.1 hc2 with h1 | h1
        · exact hf call h1
        · rw [List.mem_singleton.1 h1]
          exact hy
      · rw [h]
        obtain ⟨-, -, -, -, h5, -, h7, -⟩ := MapPage.fetchPredictionResume_frame o
          { s with inFlight := s.inFlight.eraseIdx i }
        rw [h5, h7]
        exact ⟨hy, hf⟩
    · exact ⟨by decide, by intro call hc; cases hc⟩

/-- The number of requests an event adds, in a state the page can reach: one for a year
confirmation made with a pending location, none for any other event. -/
theorem MapPage.step_fetch_count (events : List MapEvent) (e : MapEvent) :
    (MapPage.step (MapPage.run MapPage.init events) e).fetches.length
      = (MapPage.run MapPage.init events).fetches.length
        + (if MapPage.isConfirmation (MapPage.run MapPage.init events) e then 1 else 0) := by
  have hmount := MapPage.pending_location_mounted events
  generalize MapPage.run MapPage.init events = s at hmount ⊢
  by_cases hc : MapPage.isConfirmation s e = true
  · rw [if_pos hc]
    cases e with
    | analyzeClick =>
      have hl : s.locationToAnalyze.isSome = true := hc
      show (MapPage.handleAnalyzeClick s).fetches.length = _
      rcases MapPage.handleAnalyzeClick_cases s with ⟨loc, -, -, heq⟩ | ⟨hno, -⟩
      · rw [heq]
        show (s.fetches ++ [_]).length = _
        simp
      · rcases hno with hno | hno
        · rw [hno] at hl
          cases hl
        · have hne : s.locationToAnalyze ≠ none := by
            intro h0
            rw [h0] at hl
            cases hl
          have := hmount hne
          simp [MapPage.mapRef, this] at hno
    | boundaryLoaded b m => simp [MapPage.isConfirmation] at hc
    | locationSelect location => simp [MapPage.isConfirmation] at hc
    | mapClick latlng inBounds onMask => simp [MapPage.isConfirmation] at hc
    | coordSearch latInput lonInput => simp [MapPage.isConfirmation] at hc
    | searchResult x y => simp [MapPage.isConfirmation] at hc
    | resultClick result => simp [MapPage.isConfirmation] at hc
    | yearChange year => simp [MapPage.isConfirmation] at hc
    | modalClose => simp [MapPage.isConfirmation] at hc
    | closePanel => simp [MapPage.isConfirmation] at hc
    | settle i o => simp [MapPage.isConfirmation] at hc
  · rw [if_neg hc, Nat.add_zero]
    rcases MapPage.step_cases s e with h | ⟨y, -, h⟩ | h | ⟨loc, he, hl, -⟩ | ⟨i, o, h⟩
    · rw [h.2.2.2.1]
    · rw [h]
    · rw [h]
      rfl
    · exfalso
      apply hc
      rw [he]
      simp [MapPage.isConfirmation, hl]
    · rw [h]
      rw [(MapPage.fetchPredictionResume_frame o _).2.2.2.2.2.2.1]

/-- The requests sent over a run that continues a reachable state. -/
theorem MapPage.fetch_count_from (es : List MapEvent) :
    ∀ pre : List MapEvent,
      (MapPage.run MapPage.init (pre ++ es)).fetches.length
        = (MapPage.run MapPage.init pre).fetches.length
          + MapPage.confirmations (MapPage.run MapPage.init pre) es := by
  induction es with
  | nil =>
    intro pre
    simp [MapPage.confirmations]
  | cons e es ih =>
    intro pre
    have hrun : MapPage.run MapPage.init (pre ++ [e])
        = MapPage.step (MapPage.run MapPage.init pre) e := by
      rw [MapPage.run_append]
      rfl
    have h1 := ih (pre ++ [e])
    rw [List.append_assoc, List.singleton_append, hrun,
      MapPage.step_fetch_count pre e] at h1
    rw [h1, MapPage.confirmations]
    omega

/-- C25: every entry into the loading state sends exactly one prediction call, and a call
that settles, failed or not, sends none: in every run of the page the number of calls sent
equals the number of year confirmations made with a pending location. -/
theorem one_call_per_confirmation (events : List MapEvent) :
    (MapPage.run MapPage.init events).fetches.length
      = MapPage.confirmations MapPage.init events ∧
    (∀ (i : Nat) (o : FetchOutcome),
      (MapPage.step (MapPage.run MapPage.init events) (.settle i o)).fetches
        = (MapPage.run MapPage.init events).fetches) ∧
    (∀ e : MapEvent,
      (MapPage.step (MapPage.run MapPage.init events) e).uiState = UiState.loading →
      (MapPage.run MapPage.init events).uiState ≠ UiState.loading →
      (MapPage.step (MapPage.run MapPage.init events) e).fetches.length
        = (MapPage.run MapPage.init events).fetches.length + 1) ∧
    (∀ (lat lon : Rat) (year : String) (s : MapPageState),
      (MapPage.triggerAnalysis lat lon year s).uiState = UiState.loading ∧
      (MapPage.triggerAnalysis lat lon year s).fetches.length = s.fetches.length + 1) := by
  refine ⟨?_, ?_, ?_, ?_⟩
  · have h := MapPage.fetch_count_from events []
    simpa [MapPage.run, MapPage.init] using h
  · intro i o
    simp only [MapPage.step]
    split_ifs
    · exact (MapPage.fetchPredictionResume_frame o _).2.2.2.2.2.2.1
    · rfl
  · intro e hl hn
    rcases MapPage.step_cases (MapPage.run MapPage.init events) e with
      h | ⟨y, -, h⟩ | h | ⟨loc, -, -, h⟩ | ⟨i, o, h⟩
    · rw [h.1] at hl
      exact absurd hl hn
    · rw [h] at hl
      exact absurd hl hn
    · rw [h] at hl
      cases hl
    · rw [h]
      show ((MapPage.run MapPage.init events).fetches ++ [_]).length = _
      simp
    · rw [h] at hl
      unfold MapPage.fetchPredictionResume at hl
      cases hq : MapPage.fetchPredictionTry o <;> rw [hq] at hl <;> cases hl
  · intro lat lon year s
    refine ⟨rfl, ?_⟩
    show (s.fetches ++ [_]).length = _
    simp

/-- C26: in every state the page can reach, the initial state of the workflow goes with no
stored result and no selected point, the loading state with no stored result, and the
error state with a stored object that carries an error message. -/
theorem workflow_state_invariant (events : List MapEvent) :
    ((MapPage.run MapPage.init events).uiState = UiState.initial →
      (MapPage.run MapPage.init events).apiResult = JsVal.null ∧
      (MapPage.run MapPage.init events).clickedPoint = none) ∧
    ((MapPage.run MapPage.init events).uiState = UiState.loading →
      (MapPage.run MapPage.init events).apiResult = JsVal.null) ∧
    ((MapPage.run MapPage.init events).uiState = UiState.error →
      ∃ message : String, (MapPage.run MapPage.init events).apiResult
        = JsVal.obj (JsFields.cons "error" (JsVal.str message) JsFields.nil)) := by
  apply MapPage.run_induction
    (fun s => (s.uiState = UiState.initial → s.apiResult = JsVal.null ∧ s.clickedPoint = none) ∧
      (s.uiState = UiState.loading → s.apiResult = JsVal.null) ∧
      (s.uiState = UiState.error → ∃ message : String,
        s.apiResult = JsVal.obj (JsFields.cons "error" (JsVal.str message) JsFields.nil)))
  · intro s e hs
    rcases MapPage.step_cases s e with h | ⟨y, -, h⟩ | h | ⟨loc, -, -, h⟩ | ⟨i, o, h⟩
    · obtain ⟨h1, h2, h3, -, -⟩ := h
      rw [h1, h2, h3]
      exact hs
    · rw [h]
      exact hs
    · rw [h]
      refine ⟨fun _ => ⟨rfl, rfl⟩, ?_, ?_⟩ <;> intro hl <;> cases hl
    · rw [h]
      refine ⟨?_, fun _ => rfl, ?_⟩ <;> intro hl <;> cases hl
    · rw [h]
      unfold MapPage.fetchPredictionResume
      cases MapPage.fetchPredictionTry o with
      | ok data => refine ⟨?_, ?_, ?_⟩ <;> intro hl <;> cases hl
      | error message =>
        refine ⟨?_, ?_, fun _ => ⟨message, rfl⟩⟩ <;> intro hl <;> cases hl
  · refine ⟨fun _ => ⟨rfl, rfl⟩, ?_, ?_⟩ <;> intro hl <;> cases hl

/-- C25 at the two requests of `twoRequests`: two confirmations, two calls. -/
theorem one_call_per_confirmation_witness :
    (MapPage.run MapPage.init twoRequests).fetches.length = 2 ∧
    MapPage.confirmations MapPage.init twoRequests = 2 :=
  ⟨(one_call_per_confirmation twoRequests).1.trans (by decide), by decide⟩

/-- C26 at the page showing an error: the stored object carries the message. -/
theorem workflow_state_invariant_witness :
    (MapPage.run MapPage.init errorShown).uiState = UiState.error ∧
    ∃ message : String, (MapPage.run MapPage.init errorShown).apiResult
      = JsVal.obj (JsFields.cons "error" (JsVal.str message) JsFields.nil) :=
  ⟨rfl, (workflow_state_invariant errorShown).2.2 rfl⟩

/-! ## MapPage: the load of the boundary documents -/

/-- Reading a document fails exactly when the document is missing or fails to load. -/
theorem MapPage.readDocument_error_iff (name : String) (o : DocFetch) :
    (∃ message, MapPage.readDocument name o = .error message) ↔ o.failed = true := by
  cases o with
  | rejected message => simp [MapPage.readDocument, DocFetch.failed]
  | responded r =>
    obtain ⟨ok, json⟩ := r
    cases ok <;> cases json <;> simp [MapPage.readDocument, DocFetch.failed]

/-- Events other than the load leave the boundary documents and the readiness of the map
as they are. -/
theorem MapPage.run_without_load (events : List MapEvent) :
    ∀ s : MapPageState, (∀ e ∈ events, e.isLoad = false) →
      (MapPage.run s events).geoJsonData = s.geoJsonData ∧
      (MapPage.run s events).maskData = s.maskData ∧
      (MapPage.run s events).mapIsReady = s.mapIsReady := by
  induction events with
  | nil =>
    intro s _
    exact ⟨rfl, rfl, rfl⟩
  | cons e es ih =>
    intro s hev
    have he := hev e (List.mem_cons_self e es)
    obtain ⟨h1, h2, h3⟩ := ih (MapPage.step s e)
      (fun e' he' => hev e' (List.mem_cons_of_mem e he'))
    rcases MapPage.step_boundary s e with ⟨b, m, rfl⟩ | ⟨g1, g2, g3⟩
    · simp [MapEvent.isLoad] at he
    · exact ⟨h1.trans g1, h2.trans g2, h3.trans g3⟩

/-- C23: if either boundary document is missing or fails to load, the load effect changes
nothing: neither document is stored and the map is not marked ready, and since nothing
but the load stores them, the page stays not ready whatever happens afterwards; the map is
marked ready, with both documents stored, exactly when both have loaded. -/
theorem load_fails_as_whole (boundary mask : DocFetch) :
    (∀ s : MapPageState, boundary.failed = true ∨ mask.failed = true →
      MapPage.loadEffect boundary mask s = s) ∧
    (boundary.failed = true ∨ mask.failed = true →
      ∀ events : List MapEvent, (∀ e ∈ events, e.isLoad = false) →
        (MapPage.run (MapPage.loadEffect boundary mask MapPage.init) events).mapIsReady
          = false ∧
        (MapPage.run (MapPage.loadEffect boundary mask MapPage.init) events).geoJsonData
          = none ∧
        (MapPage.run (MapPage.loadEffect boundary mask MapPage.init) events).maskData
          = none) ∧
    (boundary.failed = false → mask.failed = false →
      ∃ b m, ∀ s : MapPageState,
        MapPage.loadEffect boundary mask s = MapPage.step s (.boundaryLoaded b m) ∧
        (MapPage.loadEffect boundary mask s).geoJsonData = some b ∧
        (MapPage.loadEffect boundary mask s).maskData = some m ∧
        (MapPage.loadEffect boundary mask s).mapIsReady = true) ∧
    ((MapPage.loadEffect boundary mask MapPage.init).mapIsReady = true ↔
      (boundary.failed = false ∧ mask.failed = false)) := by
  have hfail : ∀ s : MapPageState, boundary.failed = true ∨ mask.failed = true →
      MapPage.loadEffect boundary mask s = s := by
    intro s h
    unfold MapPage.loadEffect
    rcases h with h | h
    · obtain ⟨m, hm⟩ := (MapPage.readDocument_error_iff "StateBoundary.json" boundary).2 h
      rw [hm]
    · obtain ⟨m, hm⟩ := (MapPage.readDocument_error_iff "StateMask.geojson" mask).2 h
      rw [hm]
      cases MapPage.readDocument "StateBoundary.json" boundary <;> rfl
  have hok : boundary.failed = false → mask.failed = false →
      ∃ b m, MapPage.readDocument "StateBoundary.json" boundary = .ok b ∧
        MapPage.readDocument "StateMask.geojson" mask = .ok m := by
    intro hb hm
    cases h1 : MapPage.readDocument "StateBoundary.json" boundary with
    | error e =>
      have := (MapPage.readDocument_error_iff "StateBoundary.json" boundary).1 ⟨e, h1⟩
      rw [hb] at this
      cases this
    | ok b =>
      cases h2 : MapPage.readDocument "StateMask.geojson" mask with
      | error e =>
        have := (MapPage.readDocument_error_iff "StateMask.geojson" mask).1 ⟨e, h2⟩
        rw [hm] at this
        cases this
      | ok m => exact ⟨b, m, rfl, rfl⟩
  refine ⟨hfail, ?_, ?_, ?_⟩
  · intro h events hev
    rw [hfail MapPage.init h]
    exact (fun ⟨h1, h2, h3⟩ => ⟨h3, h1, h2⟩) (MapPage.run_without_load events MapPage.init hev)
  · intro hb hm
    obtain ⟨b, m, h1, h2⟩ := hok hb hm
    refine ⟨b, m, ?_⟩
    intro s
    have heq : MapPage.loadEffect boundary mask s = MapPage.boundaryLoaded b m s := by
      unfold MapPage.loadEffect
      rw [h1, h2]
    rw [heq]
    exact ⟨rfl, rfl, rfl, rfl⟩
  · constructor
    · intro hr
      by_contra hc
      have hf : boundary.failed = true ∨ mask.failed = true := by
        cases hb : boundary.failed <;> cases hm : mask.failed <;> simp_all
      rw [hfail MapPage.init hf] at hr
      cases hr
    · rintro ⟨hb, hm⟩
      obtain ⟨b, m, h1, h2⟩ := hok hb hm
      unfold MapPage.loadEffect
      rw [h1, h2]
      rfl

/-- C23 at a mask that is not found and at two documents that load. -/
theorem load_fails_as_whole_witness :
    (MapPage.loadEffect (.responded { ok := true, json := .ok sampleBoundary })
      (.responded { ok := false, json := .error "Unexpected token <" })
      MapPage.init).mapIsReady = false ∧
    (MapPage.loadEffect (.responded { ok := true, json := .ok sampleBoundary })
      (.responded { ok := false, json := .error "Unexpected token <" })
      MapPage.init).geoJsonData.isSome = false ∧
    (MapPage.loadEffect (.responded { ok := true, json := .ok sampleBoundary })
      (.responded { ok := true, json := .ok sampleMask }) MapPage.init).mapIsReady = true :=
  ⟨((load_fails_as_whole (.responded { ok := true, json := .ok sampleBoundary })
      (.responded { ok := false, json := .error "Unexpected token <" })).1 MapPage.init
      (Or.inr rfl)).symm ▸ rfl,
   ((load_fails_as_whole (.responded { ok := true, json := .ok sampleBoundary })
      (.responded { ok := false, json := .error "Unexpected token <" })).1 MapPage.init
      (Or.inr rfl)).symm ▸ rfl,
   (load_fails_as_whole (.responded { ok := true, json := .ok sampleBoundary })
      (.responded { ok := true, json := .ok sampleMask })).2.2.2.2 ⟨rfl, rfl⟩⟩

/-- C24, as stated, fails: selecting `pointA` stores it as the pending location and opens
the year selection, and the map has not been moved; the map moves to the point only when
the year is confirmed. -/
theorem pending_location_without_recentre :
    (MapPage.run MapPage.init pendingA).locationToAnalyze = some pointA ∧
    (MapPage.run MapPage.init pendingA).isModalOpen = true ∧
    (MapPage.run MapPage.init pendingA).flyTos = [] ∧
    (MapPage.run MapPage.init (pendingA ++ [.analyzeClick])).flyTos
      = [FlyTo.mk 17.5 79 12] :=
  ⟨rfl, rfl, rfl, rfl⟩

/-- C24, amended: storing a pending location and opening the year selection does not move
the map, whichever way the location arrives; the map is re-centred on the location, at
zoom 12, when the year is confirmed and the workflow enters the loading state. -/
theorem recentre_on_confirmation (s : MapPageState) :
    (∀ loc : Location,
      (MapPage.handleLocationSelect loc s).flyTos = s.flyTos ∧
      (MapPage.handleLocationSelect loc s).locationToAnalyze = some loc ∧
      (MapPage.handleLocationSelect loc s).isModalOpen = true) ∧
    (∀ e : MapEvent, e.selectsLocation = true → (MapPage.step s e).flyTos = s.flyTos) ∧
    (∀ (loc : Location) (y : String), s.locationToAnalyze = some loc →
      MapPage.mapRef s = true →
      (MapPage.handleStartAnalysis y s).flyTos = s.flyTos ++ [FlyTo.mk loc.lat loc.lon 12] ∧
      (MapPage.handleStartAnalysis y s).uiState = UiState.loading) := by
  refine ⟨fun loc => ⟨rfl, rfl, rfl⟩, ?_, ?_⟩
  · intro e he
    cases e with
    | locationSelect location =>
      simp only [MapPage.step]
      split_ifs <;> rfl
    | mapClick latlng inBounds onMask =>
      simp only [MapPage.step]
      split_ifs
      · rcases MapPage.click_shape latlng inBounds onMask s with h | h
        · rw [h]
        · rw [h]
          rfl
      · rfl
    | coordSearch latInput lonInput =>
      simp only [MapPage.step]
      split_ifs
      · rcases MapPage.coordSearch_shape latInput lonInput s with ⟨m, h⟩ | ⟨loc, h⟩ | h <;>
          rw [h] <;> try rfl
      · rfl
    | boundaryLoaded b m => simp [MapEvent.selectsLocation] at he
    | searchResult x y => simp [MapEvent.selectsLocation] at he
    | resultClick result => simp [MapEvent.selectsLocation] at he
    | yearChange year => simp [MapEvent.selectsLocation] at he
    | analyzeClick => simp [MapEvent.selectsLocation] at he
    | modalClose => simp [MapEvent.selectsLocation] at he
    | closePanel => simp [MapEvent.selectsLocation] at he
    | settle i o => simp [MapEvent.selectsLocation] at he
  · intro loc y hl hm
    simp [MapPage.handleStartAnalysis, hl, hm, MapPage.triggerAnalysis,
      MapPage.fetchPrediction]

/-- The amended C24 at `pointA` pending on the idle page. -/
theorem recentre_on_confirmation_witness :
    (MapPage.step (MapPage.run MapPage.init boundaryReady)
      (MapEvent.mapClick pointA true false)).flyTos = [] ∧
    (MapPage.handleStartAnalysis "2022-2023" (MapPage.run MapPage.init pendingA)).flyTos
      = [FlyTo.mk 17.5 79 12] :=
  ⟨(recentre_on_confirmation (MapPage.run MapPage.init boundaryReady)).2.1
      (MapEvent.mapClick pointA true false) rfl,
   ((recentre_on_confirmation (MapPage.run MapPage.init pendingA)).2.2 pointA "2022-2023"
      rfl rfl).1⟩

/-! ## ResultsDisplay: the export name and the averages -/

theorem digitChar_isDigit (d : Nat) (h : d < 10) : (digitChar d).isDigit = true := by
  interval_cases d <;> decide

theorem lastDigits_length (n f : Nat) : (lastDigits n f).length = f := by
  simp [lastDigits]

theorem lastDigits_isDigit (n f : Nat) : ∀ c ∈ lastDigits n f, c.isDigit = true := by
  intro c hc
  simp only [lastDigits, List.mem_map] at hc
  obtain ⟨i, -, rfl⟩ := hc
  exact digitChar_isDigit _ (Nat.mod_lt _ (by decide))

/-- The rounded value is within one half of the scaled magnitude, the upper one of two
equally near. -/
theorem roundedScaled_near (val : Rat) (f : Nat) :
    ((roundedScaled val f : Nat) : Rat) ≤ |val| * 10 ^ f + 1 / 2 ∧
    |val| * 10 ^ f + 1 / 2 < (roundedScaled val f : Nat) + 1 := by
  have habs : (if val < 0 then - val else val) = |val| := by
    split_ifs with h
    · exact (abs_of_neg h).symm
    · exact (abs_of_nonneg (not_lt.1 h)).symm
  unfold roundedScaled
  rw [habs]
  have hnn : (0 : Rat) ≤ |val| * 10 ^ f + 1 / 2 := by positivity
  have hfl : (0 : Int) ≤ ⌊|val| * 10 ^ f + 1 / 2⌋ := Int.floor_nonneg.2 hnn
  have hcast : ((⌊|val| * 10 ^ f + 1 / 2⌋.toNat : Nat) : Rat)
      = ((⌊|val| * 10 ^ f + 1 / 2⌋ : Int) : Rat) := by
    have h := Int.toNat_of_nonneg hfl
    exact_mod_cast congrArg (fun z : Int => (z : Rat)) h
  rw [hcast]
  exact ⟨Int.floor_le _, Int.lt_floor_add_one _⟩

theorem digitChar_toNat (d : Nat) (h : d < 10) : (digitChar d).toNat - 48 = d := by
  interval_cases d <;> decide

theorem digitsValue_append_singleton (ds : List Char) (c : Char) :
    digitsValue (ds ++ [c]) = 10 * digitsValue ds + (c.toNat - 48) := by
  simp [digitsValue, List.foldl_append]

theorem lastDigits_succ (n f : Nat) :
    lastDigits n (f + 1) = lastDigits (n / 10) f ++ [digitChar (n % 10)] := by
  unfold lastDigits
  rw [List.range_succ, List.map_append]
  congr 1
  · apply List.map_congr_left
    intro i hi
    have hi2 : i < f := List.mem_range.1 hi
    have h1 : f + 1 - 1 - i = (f - 1 - i) + 1 := by omega
    rw [h1, pow_succ, Nat.mul_comm, Nat.div_div_eq_div_mul]
  · simp

/-- The digits `lastDigits n f`, read as a number, are `n` modulo `10 ^ f`. -/
theorem digitsValue_lastDigits (f : Nat) : ∀ n : Nat,
    digitsValue (lastDigits n f) = n % 10 ^ f := by
  induction f with
  | zero =>
    intro n
    simp [lastDigits, digitsValue, Nat.mod_one]
  | succ f ih =>
    intro n
    rw [lastDigits_succ, digitsValue_append_singleton, ih,
      digitChar_toNat _ (Nat.mod_lt _ (by decide)), Nat.pow_succ, Nat.mul_comm (10 ^ f) 10,
      Nat.mod_mul]
    omega

/-- A number of magnitude below 10^21 is written by `toFixed` with exactly `f` decimal
places and rounded to the nearest, for a positive `f`. -/
theorem toFixed_writesRounded (val : Rat) (text : String) (f : Nat) (hf : 0 < f)
    (h : |val| < 10 ^ 21) : WritesRounded (toFixed val text f) val f := by
  have habs : (if val < 0 then - val else val) = |val| := by
    split_ifs with h0
    · exact (abs_of_neg h0).symm
    · exact (abs_of_nonneg (not_lt.1 h0)).symm
  have hlt : ¬ (10 : Rat) ^ 21 ≤ (if val < 0 then - val else val) := by
    rw [habs]
    exact not_le.2 h
  have hf0 : f ≠ 0 := by omega
  have hp : (0 : Rat) < 10 ^ f := by positivity
  obtain ⟨hle, hgt⟩ := roundedScaled_near val f
  have hsplit : ((roundedScaled val f / 10 ^ f : Nat) : Rat)
      + ((digitsValue (lastDigits (roundedScaled val f) f) : Nat) : Rat) / 10 ^ f
      = ((roundedScaled val f : Nat) : Rat) / 10 ^ f := by
    rw [digitsValue_lastDigits]
    have hdm := Nat.div_add_mod (roundedScaled val f) (10 ^ f)
    have hcast : ((10 ^ f * (roundedScaled val f / 10 ^ f) + roundedScaled val f % 10 ^ f
        : Nat) : Rat) = ((roundedScaled val f : Nat) : Rat) := by rw [hdm]
    push_cast at hcast
    field_simp
    linarith
  have hscale : (|val| - 1 / (2 * 10 ^ f)) * 10 ^ f = |val| * 10 ^ f - 1 / 2 := by
    field_simp
    ring
  have hscale2 : (|val| + 1 / (2 * 10 ^ f)) * 10 ^ f = |val| * 10 ^ f + 1 / 2 := by
    field_simp
    ring
  unfold toFixed
  rw [if_neg hlt]
  simp only [hf0, if_false]
  refine ⟨roundedScaled val f / 10 ^ f, String.mk (lastDigits (roundedScaled val f) f),
    rfl, ?_, ?_, ?_, ?_⟩
  · show (lastDigits (roundedScaled val f) f).length = f
    exact lastDigits_length _ _
  · exact lastDigits_isDigit _ _
  · show _ < ((roundedScaled val f / 10 ^ f : Nat) : Rat)
      + ((digitsValue (lastDigits (roundedScaled val f) f) : Nat) : Rat) / 10 ^ f
    rw [hsplit, lt_div_iff₀ hp, hscale]
    linarith
  · show ((roundedScaled val f / 10 ^ f : Nat) : Rat)
      + ((digitsValue (lastDigits (roundedScaled val f) f) : Nat) : Rat) / 10 ^ f ≤ _
    rw [hsplit, div_le_iff₀ hp, hscale2]
    exact hle

/-- The export name of a result with numeric coordinates. -/
theorem ResultsDisplay.downloadName_eq (data coordinates : JsVal) (lat lon : Rat)
    (latText lonText : String)
    (hc : data.getProp "coordinates" = .ok coordinates)
    (hla : coordinates.getProp "lat" = .ok (.num lat latText))
    (hlo : coordinates.getProp "lon" = .ok (.num lon lonText)) :
    ResultsDisplay.downloadName data
      = .ok ("crop_report_" ++ toFixed lat latText 4 ++ "_" ++ toFixed lon lonText 4
          ++ ".jpg") := by
  unfold ResultsDisplay.downloadName
  simp [hc, hla, hlo, JsVal.callToFixed]

/-- C22, as stated, fails: the request for `pointA`, the analysed location (17.5, 79), is
answered with a result whose coordinates are (18, 79.5); the result is presented, the
selected point is still (17.5, 79), and the export name is built from the coordinates of
the result, not from the location that was sent. -/
theorem download_name_from_result_coordinates :
    (MapPage.run MapPage.init resultAtB).fetches.map (fun call => (call.body.lat, call.body.lon))
      = [(17.5, 79)] ∧
    (MapPage.run MapPage.init resultAtB).uiState = UiState.result ∧
    (MapPage.run MapPage.init resultAtB).clickedPoint = some (17.5, 79) ∧
    ResultsDisplay.downloadName (MapPage.run MapPage.init resultAtB).apiResult
      = .ok "crop_report_18.0000_79.5000.jpg" ∧
    ResultsDisplay.downloadName (MapPage.run MapPage.init resultAtB).apiResult
      ≠ .ok "crop_report_17.5000_79.0000.jpg" := by
  refine ⟨by with_unfolding_all decide, rfl, by with_unfolding_all decide, ?_, ?_⟩
  · with_unfolding_all rfl
  · have hname : ResultsDisplay.downloadName (MapPage.run MapPage.init resultAtB).apiResult
        = .ok "crop_report_18.0000_79.5000.jpg" := by with_unfolding_all rfl
    rw [hname]
    intro heq
    have hs : "crop_report_18.0000_79.5000.jpg" = "crop_report_17.5000_79.0000.jpg" :=
      Except.ok.inj heq
    exact absurd hs (by decide)

/-- C22, amended: for every result that carries numeric coordinates of magnitude below
10^21, the export name is "crop_report_", the latitude, "_", the longitude and ".jpg", the
latitude and the longitude being the coordinates the result carries, each written with
exactly 4 decimal places and rounded to the nearest ten-thousandth; and when a request in
flight is answered with success by a result that carries the coordinates the request was
sent with, the result is presented and its export name writes the location of that
request. -/
theorem download_name_of_result (data coordinates : JsVal) (lat lon : Rat)
    (latText lonText : String)
    (hc : data.getProp "coordinates" = .ok coordinates)
    (hla : coordinates.getProp "lat" = .ok (.num lat latText))
    (hlo : coordinates.getProp "lon" = .ok (.num lon lonText))
    (hlat : |lat| < 10 ^ 21) (hlon : |lon| < 10 ^ 21) :
    (∃ latName lonName : String,
      ResultsDisplay.downloadName data
        = .ok ("crop_report_" ++ latName ++ "_" ++ lonName ++ ".jpg") ∧
      WritesRounded latName lat 4 ∧ WritesRounded lonName lon 4) ∧
    (∀ (s : MapPageState) (i : Nat) (call : FetchCall) (status : Nat),
      s.inFlight[i]? = some call → 200 ≤ status → status ≤ 299 →
      call.body.lat = lat → call.body.lon = lon →
      (MapPage.step s (.settle i (.responded { status := status, json := .ok data }))).uiState
        = UiState.result ∧
      ∃ latName lonName : String,
        ResultsDisplay.downloadName
          (MapPage.step s
            (.settle i (.responded { status := status, json := .ok data }))).apiResult
          = .ok ("crop_report_" ++ latName ++ "_" ++ lonName ++ ".jpg") ∧
        WritesRounded latName call.body.lat 4 ∧ WritesRounded lonName call.body.lon 4) := by
  have hname : ∃ latName lonName : String,
      ResultsDisplay.downloadName data
        = .ok ("crop_report_" ++ latName ++ "_" ++ lonName ++ ".jpg") ∧
      WritesRounded latName lat 4 ∧ WritesRounded lonName lon 4 :=
    ⟨toFixed lat latText 4, toFixed lon lonText 4,
      ResultsDisplay.downloadName_eq data coordinates lat lon latText lonText hc hla hlo,
      toFixed_writesRounded lat latText 4 (by decide) hlat,
      toFixed_writesRounded lon lonText 4 (by decide) hlon⟩
  refine ⟨hname, ?_⟩
  intro s i call status hcall h200 h299 hclat hclon
  have hi : i < s.inFlight.length := by
    by_contra hge
    rw [List.getElem?_eq_none (not_lt.1 hge)] at hcall
    cases hcall
  have hok : MapPage.fetchPredictionTry (.responded { status := status, json := .ok data })
      = .ok data := by
    simp [MapPage.fetchPredictionTry, Response.ok, h200, h299]
  have hstep : MapPage.step s (.settle i (.responded { status := status, json := .ok data }))
      = { ({ s with inFlight := s.inFlight.eraseIdx i } : MapPageState) with
          apiResult := data, uiState := .result } := by
    simp only [MapPage.step, if_pos hi, MapPage.fetchPredictionResume, hok]
  rw [hstep, hclat, hclon]
  exact ⟨rfl, hname⟩

/-- The amended C22 at the result for the point (17.5, 79), which carries the coordinates
it was requested for: the result is presented and its name,
"crop_report_17.5000_79.0000.jpg", writes the location of the request. -/
theorem download_name_of_result_witness :
    ResultsDisplay.downloadName cropBody = .ok "crop_report_17.5000_79.0000.jpg" ∧
    (MapPage.run MapPage.init resultShown).uiState = UiState.result ∧
    ∃ latName lonName : String,
      ResultsDisplay.downloadName (MapPage.run MapPage.init resultShown).apiResult
        = .ok ("crop_report_" ++ latName ++ "_" ++ lonName ++ ".jpg") ∧
      WritesRounded latName 17.5 4 ∧ WritesRounded lonName 79 4 :=
  ⟨by with_unfolding_all rfl,
   ((download_name_of_result cropBody
      (.obj (JsFields.ofList [("lat", .num 17.5 "17.5"), ("lon", .num 79 "79")]))
      17.5 79 "17.5" "79" rfl rfl rfl (by norm_num [abs_lt]) (by norm_num [abs_lt])).2
      (MapPage.run MapPage.init oneRequest) 0
      { url := API_ENDPOINT, method := "POST", contentType := "application/json",
        body := { lat := 17.5, lon := 79, year := "2020-2021" } }
      200 (by with_unfolding_all decide) (by decide) (by decide) rfl rfl).1,
   ((download_name_of_result cropBody
      (.obj (JsFields.ofList [("lat", .num 17.5 "17.5"), ("lon", .num 79 "79")]))
      17.5 79 "17.5" "79" rfl rfl rfl (by norm_num [abs_lt]) (by norm_num [abs_lt])).2
      (MapPage.run MapPage.init oneRequest) 0
      { url := API_ENDPOINT, method := "POST", contentType := "application/json",
        body := { lat := 17.5, lon := 79, year := "2020-2021" } }
      200 (by with_unfolding_all decide) (by decide) (by decide) rfl rfl).2⟩

/-- C27, at its failing input: for a result whose NDWI average is the number 0 the field
shows "N/A", where three decimal places would give "0.000"; a null average shows "N/A" and
the average 0.5 shows "0.500". -/
theorem zero_metric_shows_not_available :
    ResultsDisplay.ndwiAvg zeroMetricBody = .ok "N/A" ∧
    toFixed 0 "0" 3 = "0.000" ∧
    ResultsDisplay.bsiAvg zeroMetricBody = .ok "0.500" ∧
    ResultsDisplay.ndwiAvg cropBody = .ok "N/A" := by
  refine ⟨?_, by with_unfolding_all decide, ?_, ?_⟩
  · with_unfolding_all rfl
  · with_unfolding_all rfl
  · with_unfolding_all rfl

end Agrovision
